import Mathlib

/-!
Verification development for the kiosk-door flow orchestration engine.

The definitions below are a shallow embedding of the TypeScript sources:
  * `FlowRunnerService` (src/app/flow-services/flow-state-manager.service.ts,
    second document in the file): command dispatch, navigation helpers,
    state manager, modal manager, event manager and validators;
  * `ModalsControllerService` (modals-controller.service.ts): the layer map
    keyed by generated modal ids.

Modelling conventions:
  * JavaScript runtime values appearing in execution contexts and edge
    conditions are modelled by `JsValue`; numbers by `JsNum`, with `nan`
    covering every non-numeric coercion result.  Fractional literals are out
    of the modelled number fragment (every claim below exercises integers).
  * `Record<string, T>` objects are association lists; lookup takes the
    first binding, and object-spread merge is right-biased (`mergeCtx`);
    representations agree with JavaScript objects up to key order, which no
    modelled code path observes.
  * `null` and `undefined` both map to `Option.none` where only falsiness of
    the value is observed by the source.
  * Exceptions are modelled by `Except ErrObj`; a handler that throws after
    mutating returns the mutated state together with the error, mirroring
    heap mutation surviving a JavaScript throw.
  * Host-language dynamic evaluation of string conditions (`new Function`)
    is modelled by `evalJsExpr`, which covers boolean literals and single
    context-variable expressions and reports every other input as an
    evaluation failure (`none`), the way the source's try/catch observes it.
  * Wall-clock timestamps, console logging and the RxJS subjects are not
    modelled; emitted telemetry is accumulated in the state.
-/

deriving instance DecidableEq for Except

namespace KioskFlow

/-- JavaScript numbers as observed by the modelled coercions: an integer or
`NaN`.  Every comparison against `nan` is false, as in JavaScript. -/
inductive JsNum where
  | int (i : Int)
  | nan
deriving DecidableEq, Repr

/-- JavaScript runtime values that flow through contexts and conditions. -/
inductive JsValue where
  | vStr (s : String)
  | vNum (n : JsNum)
  | vBool (b : Bool)
  | vNull
  | vUndef
deriving DecidableEq, Repr

namespace JsNum

/-- Equality of JavaScript numbers: `NaN` is not equal to anything. -/
def numEq : JsNum → JsNum → Bool
  | int a, int b => a == b
  | _, _ => false

def numGt : JsNum → JsNum → Bool
  | int a, int b => a > b
  | _, _ => false

def numGe : JsNum → JsNum → Bool
  | int a, int b => a ≥ b
  | _, _ => false

def numLt : JsNum → JsNum → Bool
  | int a, int b => a < b
  | _, _ => false

def numLe : JsNum → JsNum → Bool
  | int a, int b => a ≤ b
  | _, _ => false

end JsNum

/-- `Number(string)` on the modelled fragment: the empty string coerces to
`0`, optionally-signed digit strings parse as integers, everything else is
`NaN`. -/
def parseNumber (s : String) : JsNum :=
  if s = "" then .int 0
  else
    let (neg, digits) :=
      if s.startsWith "-" then (true, s.drop 1) else (false, s)
    if digits ≠ "" ∧ digits.all Char.isDigit then
      let v : Int := Int.ofNat (digits.foldl (fun a c => a * 10 + c.toNat - 48) 0)
      .int (if neg then -v else v)
    else .nan

/-- `Number(value)` coercion. -/
def toNumber : JsValue → JsNum
  | .vNum n => n
  | .vBool true => .int 1
  | .vBool false => .int 0
  | .vNull => .int 0
  | .vUndef => .nan
  | .vStr s => parseNumber s

/-- JavaScript strict equality `===` on the modelled values. -/
def strictEq : JsValue → JsValue → Bool
  | .vStr a, .vStr b => a == b
  | .vNum a, .vNum b => a.numEq b
  | .vBool a, .vBool b => a == b
  | .vNull, .vNull => true
  | .vUndef, .vUndef => true
  | _, _ => false

/-- JavaScript loose equality `==` on the modelled values: `null` and
`undefined` equal each other and nothing else; two strings compare as
strings; any other pair compares after numeric coercion. -/
def looseEq : JsValue → JsValue → Bool
  | .vNull, .vNull => true
  | .vNull, .vUndef => true
  | .vUndef, .vNull => true
  | .vUndef, .vUndef => true
  | .vNull, _ => false
  | _, .vNull => false
  | .vUndef, _ => false
  | _, .vUndef => false
  | .vStr a, .vStr b => a == b
  | a, b => (toNumber a).numEq (toNumber b)

/-- JavaScript truthiness of the modelled values. -/
def truthy : JsValue → Bool
  | .vStr s => s ≠ ""
  | .vNum (.int i) => i ≠ 0
  | .vNum .nan => false
  | .vBool b => b
  | .vNull => false
  | .vUndef => false

/-- Execution contexts (`FlowContext = Record<string, unknown>`) as
association lists with unique keys by construction. -/
abbrev Ctx := List (String × JsValue)

/-- `context[field]` lookup; a missing key reads as `undefined`. -/
def ctxFind (c : Ctx) (k : String) : Option JsValue :=
  match c with
  | [] => none
  | p :: rest => if p.1 = k then some p.2 else ctxFind rest k

/-- `context[field]`, with the JavaScript missing-key result. -/
def ctxGet (c : Ctx) (k : String) : JsValue :=
  (ctxFind c k).getD .vUndef

def ctxHasKey (c : Ctx) (k : String) : Bool :=
  (ctxFind c k).isSome

/-- Object-spread merge `\x7b ...base, ...upd \x7d`: keys of `upd` override,
remaining keys of `base` persist. -/
def mergeCtx (base upd : Ctx) : Ctx :=
  (List.filter (fun p => ! ctxHasKey upd p.1) base) ++ upd

/-- Spread with an optional update object (`\x7b ...base, ...u \x7d` where
`u` may be `undefined`). -/
def mergeCtxOpt (base : Ctx) (upd : Option Ctx) : Ctx :=
  match upd with
  | none => base
  | some u => mergeCtx base u

/-- JavaScript `a || b` on an optional string: `undefined` and the empty
string are falsy and fall through to `b`. -/
def orStr (a : Option String) (b : String) : String :=
  match a with
  | some s => if s = "" then b else s
  | none => b

/-- JavaScript `a || b` where both operands are optional strings. -/
def orStrOpt (a b : Option String) : Option String :=
  match a with
  | some s => if s = "" then b else some s
  | none => b

/-- `if (!x)` on an optional string: collapses the empty string to `none`. -/
def truthyStr : Option String → Option String
  | some s => if s = "" then none else some s
  | none => none

-- ========== DATA MODEL (flow.types / node-component-registry.types.ts) ==========

/-- Edge conditions as they occur at runtime: either a string expression or a
structured `\x7bfield, operator, value\x7d` object (interface `EdgeCondition`).
The operator is kept as a raw string to preserve the source's `default`
switch branch. -/
inductive EdgeConditionV where
  | condStr (s : String)
  | condObj (field : String) (operator : String) (value : JsValue)
deriving DecidableEq, Repr

/-- `FlowEdge`. -/
structure FlowEdge where
  id : Option String := none
  source : String
  target : String
  condition : Option EdgeConditionV := none
deriving DecidableEq, Repr

/-- `FlowNode`.  The nested `meta.display` record is flattened into the
fields actually read by the runner (`showOn`, `stickyRootOnMobile`,
`rootKeepsChildrenUntil`); `config.page` becomes `configPage`; the optional
`tags` array defaults to `[]`, which is observationally equal for the only
read (`tags?.includes('checkpoint') || false`).  Unread decoration fields
(title, icon, ...) are omitted. -/
structure FlowNode where
  id : String
  type : Option String := none
  tags : List String := []
  configPage : Option String := none
  showOn : Option String := none
  stickyRootOnMobile : Bool := false
  rootKeepsChildrenUntil : Option String := none
deriving DecidableEq, Repr

/-- `Flow`.  `nodes` is the `Record<string, FlowNode>` as an association
list; `globals` likewise.  The `policies`, `subflows`, `preload` and
`returnTo` fields are never read by `FlowRunnerService` and are omitted. -/
structure Flow where
  id : String
  version : String := "1"
  start : String
  globals : Ctx := []
  nodes : List (String × FlowNode)
  edges : List FlowEdge
deriving DecidableEq, Repr

/-- `flow.nodes[nodeId]` lookup (first binding wins, keys unique). -/
def nodesFind (flow : Flow) (nodeId : String) : Option FlowNode :=
  (flow.nodes.find? (fun p => p.1 = nodeId)).map Prod.snd

-- ========== NAVIGATION HELPERS (FlowRunnerService.navigation) ==========

/-- `navigation.evaluateObjectCondition`: direct operator semantics over the
context field, with numeric coercion for the ordering operators and `false`
for any unrecognized operator. -/
def evaluateObjectCondition (field operator : String) (value : JsValue)
    (context : Ctx) : Bool :=
  let fieldValue := ctxGet context field
  if operator = "==" then looseEq fieldValue value
  else if operator = "===" then strictEq fieldValue value
  else if operator = "!=" then ! looseEq fieldValue value
  else if operator = "!==" then ! strictEq fieldValue value
  else if operator = ">" then (toNumber fieldValue).numGt (toNumber value)
  else if operator = ">=" then (toNumber fieldValue).numGe (toNumber value)
  else if operator = "<" then (toNumber fieldValue).numLt (toNumber value)
  else if operator = "<=" then (toNumber fieldValue).numLe (toNumber value)
  else false

/-- Model of the host-language dynamic evaluation performed by
`evaluateStringCondition` (`new Function(...keys, return condition)` applied
to the context values).  The modelled expression fragment is boolean
literals and a single context-variable reference (its value read for
truthiness); every other expression, including a reference to a variable
that is not a context key, is an evaluation failure (`none`), which is
exactly what the source's try/catch observes. -/
def evalJsExpr (s : String) (context : Ctx) : Option Bool :=
  if s = "true" then some true
  else if s = "false" then some false
  else
    match ctxFind context s with
    | some v => some (truthy v)
    | none => none

/-- `navigation.evaluateStringCondition`: the try/catch around the dynamic
evaluation coerces failure to `false`. -/
def evaluateStringCondition (s : String) (context : Ctx) : Bool :=
  (evalJsExpr s context).getD false

/-- `navigation.evaluateCondition`: dispatch on the runtime type of the
condition. -/
def evaluateCondition (c : EdgeConditionV) (context : Ctx) : Bool :=
  match c with
  | .condObj f op v => evaluateObjectCondition f op v context
  | .condStr s => evaluateStringCondition s context

/-- Falsiness of `edge.condition` (`undefined` or the empty string). -/
def conditionFalsy : Option EdgeConditionV → Bool
  | none => true
  | some (.condStr s) => s = ""
  | some (.condObj _ _ _) => false

/-- `navigation.isEdgeValid`: no condition (or the literal string "true")
is always valid; otherwise the condition is evaluated and any failure
falls through the try/catch to `false`.  (`evaluateCondition` is total in
the model; the catch corresponds to `evalJsExpr = none` being coerced to
`false`.) -/
def isEdgeValid (edge : FlowEdge) (context : Ctx) : Bool :=
  if conditionFalsy edge.condition then true
  else if edge.condition = some (.condStr "true") then true
  else
    match edge.condition with
    | none => true
    | some c => evaluateCondition c context

/-- `navigation.getValidEdges`: outgoing edges of the node, in declared
order, whose condition evaluates valid. -/
def getValidEdges (nodeId : String) (flow : Flow) (context : Ctx) :
    List FlowEdge :=
  (flow.edges.filter (fun e => e.source = nodeId)).filter
    (fun e => isEdgeValid e context)

/-- `navigation.getNextNodeId`: target of the first valid outgoing edge. -/
def getNextNodeId (nodeId : String) (flow : Flow) (context : Ctx) :
    Option String :=
  match getValidEdges nodeId flow context with
  | [] => none
  | e :: _ => some e.target

/-- `navigation.resolveBackward`: `null` when history has at most one
entry, otherwise the entry before the last (the first `candidates.pop()`
of the active loop body).  A history entry can itself be the JavaScript
`undefined` (see `navigateToNode`), in which case the returned value is
falsy like the `null` result. -/
def resolveBackward (history : List (Option FlowNode)) : Option FlowNode :=
  if history.length ≤ 1 then none
  else (history.get? (history.length - 2)).getD none

-- ========== ERRORS (workflow-error.ts) ==========

/-- JavaScript `Error` objects as observed by the runner: `FlowError`
carries a code, plain errors do not.  Stack traces and timestamps are not
modelled; messages are abbreviated, without the interpolated ids. -/
structure ErrObj where
  name : String
  message : String
  code : Option String := none
deriving DecidableEq, Repr

/-- `new FlowError(message, code)`. -/
def flowError (message code : String) : ErrObj :=
  ⟨"FlowError", message, some code⟩

/-- The `TypeError` raised by a property access on `undefined`. -/
def typeError : ErrObj :=
  ⟨"TypeError", "cannot read properties of undefined", none⟩

-- ========== COMMANDS AND EVENTS (flow.types) ==========

/-- `FlowCommand`, extended with `UNKNOWN` for command strings outside the
union, which at runtime simply miss the `commandHandlers` record. -/
inductive FlowCommand where
  | START | NEXT | BACK | CLOSE
  | START_SUBFLOW | NEXT_SUBFLOW | BACK_SUBFLOW | CLOSE_SUBFLOW
  | RESUME | FLOW_SYNC | JUMP_TO | RESET | ERROR
  | UNKNOWN (raw : String)
deriving DecidableEq, Repr

/-- The payload fields read by the handlers.  The rest-spread data that
`handleClose`/`handleCloseSubflow` copy into their emitted event payloads
is not modelled (the event log below records commands only). -/
structure FlowPayload where
  flow : Option Flow := none
  subflow : Option Flow := none
  startNodeId : Option String := none
  targetNodeId : Option String := none
  nodeId : Option String := none
  returnTo : Option String := none
  reason : Option String := none
  context : Option Ctx := none
  error : Option ErrObj := none
deriving DecidableEq, Repr

/-- `FlowEvent` as dispatched. -/
structure FlowEvent where
  command : FlowCommand
  payload : FlowPayload := {}
deriving DecidableEq, Repr

/-- One telemetry record of the `telemetry$` stream; `data` payloads are
projected onto the fields the claims observe. -/
structure TelemetryRecord where
  type : String
  flowId : String
  nodeId : Option String := none
  previousNodeId : Option String := none
  edgeSource : Option String := none
  edgeTarget : Option String := none
  errName : Option String := none
  errMessage : Option String := none
deriving DecidableEq, Repr

-- ========== MODALS (modals-controller.service.ts) ==========

/-- `ModalState`, the per-layer record of `ModalsControllerService`.  The
Angular component is kept as the registry identifier that resolved it;
`createdAt` and the live modal element are not modelled. -/
structure ModalState where
  id : String
  nodeId : String
  flowId : String
  type : String
  level : Nat
  parentModalId : Option String := none
  component : String
deriving DecidableEq, Repr

/-- `ModalResult` (only the `dismissed` flag is read by the claims). -/
structure ModalResult where
  dismissed : Bool
deriving DecidableEq, Repr

-- ========== EXTERNAL ENVIRONMENT ==========

/-- The ambient collaborators of the runner: the device class probed by
`window.matchMedia` and the `NodeComponentRegistryService.has` lookup. -/
structure Env where
  isMobile : Bool
  registryHas : String → Bool

-- ========== RUNNER STATE (FlowRunnerService.state) ==========

/-- `SubflowStackEntry`. -/
structure SubflowStackEntry where
  flow : Flow
  returnTo : String
  context : Ctx
deriving DecidableEq, Repr

/-- The mutable state of `FlowRunnerService` plus the modal map of
`ModalsControllerService` and the emitted event/telemetry streams
(accumulated as lists; `modalSeq` replaces the timestamp+random modal id
generator with a unique counter).  A `none` entry in `history` is the
JavaScript `undefined` pushed by `navigateToNode` on a failed node
lookup. -/
structure RunState where
  currentNode : Option FlowNode := none
  lastTask : Option FlowNode := none
  history : List (Option FlowNode) := []
  flow : Option Flow := none
  context : Ctx := []
  isRunning : Bool := false
  subflowStack : List SubflowStackEntry := []
  error : Option ErrObj := none
  stickyRootCheckpointId : Option String := none
  modals : List ModalState := []
  modalSeq : Nat := 0
  events : List FlowCommand := []
  telemetry : List TelemetryRecord := []
deriving DecidableEq, Repr

-- ========== STATE MANAGEMENT (FlowRunnerService.stateManager) ==========

/-- `stateManager.initialize`. -/
def initializeFlowState (flow : Flow) (context : Option Ctx) (s : RunState) :
    RunState :=
  { s with flow := some flow, context := context.getD [], history := [],
           currentNode := none, lastTask := none, subflowStack := [],
           isRunning := true, error := none }

/-- `stateManager.initializeSubflow`. -/
def initializeSubflowState (flow : Flow) (context : Ctx) (s : RunState) :
    RunState :=
  { s with flow := some flow, context := context, history := [] }

/-- `stateManager.reset`. -/
def resetState (s : RunState) : RunState :=
  { s with flow := none, currentNode := none, lastTask := none,
           history := [], context := [], isRunning := false,
           subflowStack := [], error := none,
           stickyRootCheckpointId := none }

/-- `stateManager.setCurrentNode`. -/
def setCurrentNode (node : FlowNode) (s : RunState) : RunState :=
  { s with currentNode := some node }

/-- `stateManager.setLastTask`. -/
def setLastTaskState (node : FlowNode) (s : RunState) : RunState :=
  { s with lastTask := some node }

/-- `stateManager.setError`. -/
def setErrorState (e : ErrObj) (s : RunState) : RunState :=
  { s with error := some e }

/-- `stateManager.addToHistory`. -/
def addToHistory (node : FlowNode) (s : RunState) : RunState :=
  { s with history := s.history ++ [some node] }

/-- `stateManager.navigateToNode`.  The argument is optional because
`handleNextSubflow` passes a raw `flow.nodes[id]` lookup: on a miss the
source still assigns `currentNode` and pushes the `undefined` entry before
`node.type` raises a `TypeError`. -/
def navigateToNode (node : Option FlowNode) (s : RunState) :
    RunState × Except ErrObj Unit :=
  let s1 := { s with currentNode := node, history := s.history ++ [node] }
  match node with
  | none => (s1, .error typeError)
  | some n =>
      (if n.type = some "task" then { s1 with lastTask := some n } else s1,
       .ok ())

/-- `history.findIndex((n) => n.id === node.id)`: walking the entries in
order; touching an `undefined` entry raises a `TypeError`; `.ok none` is
the JavaScript `-1`. -/
def findIndexById (history : List (Option FlowNode)) (id : String) :
    Except ErrObj (Option Nat) :=
  match history with
  | [] => .ok none
  | none :: _ => .error typeError
  | some n :: rest =>
      if n.id = id then .ok (some 0)
      else
        match findIndexById rest id with
        | .error e => .error e
        | .ok none => .ok none
        | .ok (some k) => .ok (some (k + 1))

/-- `stateManager.navigateBack`: truncate history to
`slice(0, findIndex + 1)` and move to the node.  A `-1` find result would
slice to the empty history, as in the source. -/
def navigateBack (node : FlowNode) (history : List (Option FlowNode))
    (s : RunState) : RunState × Except ErrObj Unit :=
  match findIndexById history node.id with
  | .error e => (s, .error e)
  | .ok idx =>
      let cut := match idx with | some i => i + 1 | none => 0
      ({ s with history := history.take cut, currentNode := some node },
       .ok ())

/-- `stateManager.updateContext`. -/
def updateContext (updates : Ctx) (s : RunState) : RunState :=
  { s with context := mergeCtx s.context updates }

/-- `stateManager.startWorkflow`. -/
def startWorkflow (s : RunState) : RunState :=
  { s with isRunning := true, error := none }

/-- `stateManager.stopWorkflow`. -/
def stopWorkflow (s : RunState) : RunState :=
  { s with isRunning := false }

/-- `stateManager.pushSubflow`. -/
def pushSubflow (flow : Flow) (returnTo : String) (context : Ctx)
    (s : RunState) : RunState :=
  { s with subflowStack := s.subflowStack ++ [⟨flow, returnTo, context⟩] }

/-- `stateManager.popSubflow`: pop the last entry, restore its flow, and
spread the optional merge context over the saved context. -/
def popSubflow (mergeContext : Option Ctx) (s : RunState) :
    RunState × Option SubflowStackEntry :=
  match s.subflowStack.getLast? with
  | none => (s, none)
  | some entry =>
      ({ s with subflowStack := s.subflowStack.dropLast,
                flow := some entry.flow,
                context := mergeCtxOpt entry.context mergeContext },
       some entry)

-- ========== MODALS CONTROLLER (ModalsControllerService) ==========

/-- Stable insertion for the ascending-by-level sort used by the modal
getters (`Array.sort((a, b) => a.level - b.level)`). -/
def insertByLevel : List ModalState → ModalState → List ModalState
  | [], m => [m]
  | x :: xs, m =>
      if x.level ≤ m.level then x :: insertByLevel xs m else m :: x :: xs

/-- Sort modals ascending by level, stable on ties. -/
def sortByLevel (l : List ModalState) : List ModalState :=
  l.foldl insertByLevel []

/-- `getModalsByFlow`. -/
def getModalsByFlow (flowId : String) (s : RunState) : List ModalState :=
  sortByLevel (s.modals.filter (fun m => m.flowId = flowId))

/-- `getModalsByType`. -/
def getModalsByType (type : String) (s : RunState) : List ModalState :=
  sortByLevel (s.modals.filter (fun m => m.type = type))

/-- `getCurrentMainModal`: topmost main modal. -/
def getCurrentMainModal (s : RunState) : Option ModalState :=
  (getModalsByType "main" s).getLast?

/-- `ModalsControllerService.openModal`: generate an id, record the layer
entry at level `modals.size` and present it.  The await on `onDidDismiss`
and the entry's later removal happen asynchronously after dismissal and
are outside the synchronous step relation. -/
def ctrlOpenModal (component nodeId flowId type : String)
    (parentModalId : Option String) (s : RunState) : RunState :=
  let modalId := type ++ "-modal-" ++ nodeId ++ "-" ++ toString s.modalSeq
  let entry : ModalState :=
    ⟨modalId, nodeId, flowId, type, s.modals.length, parentModalId,
     component⟩
  { s with modals := s.modals ++ [entry], modalSeq := s.modalSeq + 1 }

/-- `closeAllModals`: the controller clears its map synchronously (the
individual dismiss animations are asynchronous). -/
def closeAllModalsState (s : RunState) : RunState :=
  { s with modals := [] }

/-- `closeMainModal` / `closeNestedModal` / `closeSubflowModal` /
`closeAllSubflowModals`: these only schedule a delayed `dismiss`; the map
entry is removed later by the asynchronous dismissal continuation, so the
synchronous state is unchanged. -/
def scheduleCloseModals (s : RunState) : RunState := s

-- ========== MODAL MANAGEMENT (FlowRunnerService.modalManager) ==========

/-- `modalManager.isCheckpoint`. -/
def isCheckpoint (node : FlowNode) : Bool :=
  node.tags.contains "checkpoint"

/-- `modalManager.hasComponent`: a truthy `config.page` registered in the
component registry, or else a truthy node type registered there. -/
def hasComponent (env : Env) (node : FlowNode) : Bool :=
  (match truthyStr node.configPage with
   | some p => env.registryHas p
   | none => false) ||
  (match truthyStr node.type with
   | some t => env.registryHas t
   | none => false)

/-- `modalManager.shouldOpenModal`: the display target must match the
device class (`none` never, `all` always, `mobile`/`tablet+` by class) and
a component must be registered for the node. -/
def shouldOpenModal (env : Env) (node : FlowNode) : Bool :=
  let showConfig := node.showOn.getD "all"
  if showConfig = "none" then false
  else
    let isCompatible :=
      showConfig = "all" ∨ (showConfig = "mobile" ∧ env.isMobile) ∨
        (showConfig = "tablet+" ∧ ¬ env.isMobile)
    if ¬ isCompatible then false
    else hasComponent env node

/-- `modalManager.getComponent`: resolve by page reference, then by node
type, else throw `COMPONENT_NOT_FOUND`.  The resolved component is
represented by the registry key that produced it. -/
def getComponent (env : Env) (node : FlowNode) : Except ErrObj String :=
  match truthyStr node.configPage with
  | some p =>
      if env.registryHas p then .ok p
      else
        match truthyStr node.type with
        | some t =>
            if env.registryHas t then .ok t
            else .error (flowError "no component for node" "COMPONENT_NOT_FOUND")
        | none => .error (flowError "no component for node" "COMPONENT_NOT_FOUND")
  | none =>
      match truthyStr node.type with
      | some t =>
          if env.registryHas t then .ok t
          else .error (flowError "no component for node" "COMPONENT_NOT_FOUND")
      | none => .error (flowError "no component for node" "COMPONENT_NOT_FOUND")

/-- `modalManager.openModal`: an already-open layer for the same
`(nodeId, flowId)` pair short-circuits to a not-dismissed result without a
new entry; otherwise the component is resolved (which can throw) and the
controller opens a new layer.  `none` stands for a result that is pending
external dismissal. -/
def openModalRunner (env : Env) (node : FlowNode) (flowId type : String)
    (parentModalId : Option String) (s : RunState) :
    RunState × Except ErrObj (Option ModalResult) :=
  let existing := getModalsByFlow flowId s
  if existing.any (fun m => m.nodeId = node.id) then
    (s, .ok (some ⟨false⟩))
  else
    match getComponent env node with
    | .error e => (s, .error e)
    | .ok component =>
        (ctrlOpenModal component node.id flowId type parentModalId s,
         .ok none)

/-- `navigation.resolveForward`: walk the first-valid-edge chain while the
node is not presentable, up to 100 hops.  `cur = none` is the `undefined`
reached through a dangling edge target, on which the loop condition fails
and `current || from` yields the original node. -/
def resolveForwardAux (env : Env) (context : Ctx) (flow : Flow)
    (from_ : FlowNode) : Option FlowNode → Nat → FlowNode
  | none, _ => from_
  | some c, 0 => c
  | some c, fuel + 1 =>
      if shouldOpenModal env c then c
      else
        match getNextNodeId c.id flow context with
        | none => c
        | some nextId =>
            resolveForwardAux env context flow from_ (nodesFind flow nextId)
              fuel

/-- `resolveForward(from, flow)` with the fixed 100-iteration cap. -/
def resolveForward (env : Env) (context : Ctx) (flow : Flow)
    (from_ : FlowNode) : FlowNode :=
  resolveForwardAux env context flow from_ (some from_) 100

/-- Await a modal-open call: the pending result is discarded and a thrown
component error propagates. -/
def awaitOpen (r : RunState × Except ErrObj (Option ModalResult)) :
    RunState × Except ErrObj Unit :=
  (r.1, match r.2 with | .error e => .error e | .ok _ => .ok ())

/-- The layer bookkeeping of `modalManager.handleTransition` before the
final open: on mobile the sticky-checkpoint policy elects a new sticky
root (closing every layer) or schedules a nested presentation; on desktop
the main layer is cycled.  The boolean is `isNested`. -/
def layerStep (env : Env) (node : FlowNode) (s : RunState) :
    RunState × Bool :=
  if env.isMobile then
    if isCheckpoint node ∧ node.stickyRootOnMobile then
      (closeAllModalsState
        { s with stickyRootCheckpointId := some node.id }, false)
    else
      match s.stickyRootCheckpointId with
      | some stickyId =>
          let sticky := s.flow.bind (fun f => nodesFind f stickyId)
          let until_ := sticky.bind (fun n => n.rootKeepsChildrenUntil)
          if until_ = some node.id then
            (closeAllModalsState
              { s with stickyRootCheckpointId := some node.id }, false)
          else (scheduleCloseModals s, true)
      | none => (s, false)
  else (scheduleCloseModals s, false)

/-- `modalManager.handleTransition`: BACK closes the main layer first,
then the layer policy runs, and finally the target is opened when
presentable.  The only error route is the component lookup inside the
open (unreachable under the `shouldOpenModal` guard). -/
def handleTransition (env : Env) (node : FlowNode) (flowId : String)
    (action : FlowCommand) (s : RunState) : RunState × Except ErrObj Unit :=
  let s := if action = .BACK then scheduleCloseModals s else s
  let pr := layerStep env node s
  if ¬ shouldOpenModal env node then (pr.1, .ok ())
  else
    awaitOpen (openModalRunner env node flowId
      (if pr.2 then "nested" else "main") none pr.1)

-- ========== EVENT MANAGER (FlowRunnerService.eventManager) ==========

/-- `eventManager.emitWorkflowEvent` (the `events$` stream, recorded as the
sequence of emitted commands). -/
def emitWorkflowEvent (command : FlowCommand) (s : RunState) : RunState :=
  { s with events := s.events ++ [command] }

/-- `eventManager.emitNodeEnter`. -/
def emitNodeEnter (node : FlowNode) (flowId : String)
    (previousId : Option String) (s : RunState) : RunState :=
  { s with telemetry := s.telemetry ++
      [{ type := "node.enter", flowId := flowId, nodeId := some node.id,
         previousNodeId := previousId }] }

/-- `eventManager.emitEdgeTaken`: silent when no declared edge joins the
two nodes. -/
def emitEdgeTaken (source target : String) (flow : Flow) (s : RunState) :
    RunState :=
  match flow.edges.find? (fun e => e.source = source ∧ e.target = target) with
  | none => s
  | some e =>
      { s with telemetry := s.telemetry ++
          [{ type := "edge.taken", flowId := flow.id,
             edgeSource := some e.source, edgeTarget := some e.target }] }

/-- `eventManager.emitSubflowStarted`: one telemetry record plus one
`START_SUBFLOW` event. -/
def emitSubflowStarted (subflow : Flow) (s : RunState) : RunState :=
  { s with
      telemetry := s.telemetry ++
        [{ type := "subflow.started", flowId := subflow.id }],
      events := s.events ++ [.START_SUBFLOW] }

/-- `eventManager.emitSubflowClosed`. -/
def emitSubflowClosed (subflowId : Option String) (s : RunState) :
    RunState :=
  { s with
      telemetry := s.telemetry ++
        [{ type := "subflow.closed", flowId := orStr subflowId "unknown" }],
      events := s.events ++ [.CLOSE_SUBFLOW] }

/-- `eventManager.emitWorkflowClosed`. -/
def emitWorkflowClosed (flowId : Option String) (nodeId : Option String)
    (s : RunState) : RunState :=
  { s with telemetry := s.telemetry ++
      [{ type := "flow.closed", flowId := orStr flowId "unknown",
         nodeId := nodeId }] }

/-- The `flow.error` telemetry record emitted by `emitWorkflowError`,
carrying the error name and message and falling back to "unknown" ids. -/
def flowErrorRecord (e : ErrObj) (s : RunState) : TelemetryRecord :=
  { type := "flow.error",
    flowId := orStr (s.flow.map Flow.id) "unknown",
    nodeId := some (orStr (s.currentNode.map FlowNode.id) "unknown"),
    errName := some e.name, errMessage := some e.message }

/-- `eventManager.emitWorkflowError`. -/
def emitWorkflowError (e : ErrObj) (s : RunState) : RunState :=
  { s with telemetry := s.telemetry ++ [flowErrorRecord e s] }

-- ========== VALIDATION (FlowRunnerService.validators) ==========

/-- `validators.validateNode`: a falsy id is rejected before the lookup,
a missing node throws `NODE_NOT_FOUND`. -/
def validateNode (flow : Flow) (nodeId : Option String) :
    Except ErrObj FlowNode :=
  match truthyStr nodeId with
  | none => .error (flowError "target node required" "INVALID_NODE_ID")
  | some nid =>
      match nodesFind flow nid with
      | none => .error (flowError "node not found in flow" "NODE_NOT_FOUND")
      | some n => .ok n

/-- `validators.canNavigate` (the warnings are log-only). -/
def canNavigate (current : Option FlowNode) (flow : Option Flow) : Bool :=
  flow.isSome && current.isSome

/-- `validators.canGoBack`. -/
def canGoBack (history : List (Option FlowNode)) (flow : Option Flow) :
    Bool :=
  flow.isSome && history.length > 1

-- ========== HANDLERS (FlowRunnerService.handlers) ==========

/-- `navigateToNode` specialised to a present node (the only way the
NEXT/JUMP_TO handlers reach it). -/
def navigateToNodeReal (n : FlowNode) (s : RunState) : RunState :=
  let s1 := { s with currentNode := some n, history := s.history ++ [some n] }
  if n.type = some "task" then { s1 with lastTask := some n } else s1

/-- `history[history.length - 1].id`: reading the id of the last history
entry; raises on an empty history or an `undefined` entry. -/
def historyLastId (history : List (Option FlowNode)) :
    Except ErrObj String :=
  match history.getLast? with
  | none => .error typeError
  | some none => .error typeError
  | some (some n) => .ok n.id

/-- `handlers.handleStart`. -/
def handleStart (env : Env) (ev : FlowEvent) (s : RunState) :
    RunState × Except ErrObj Unit :=
  match ev.payload.flow with
  | none => (s, .error (flowError "flow is required" "FLOW_START_FAILED"))
  | some flow =>
      let s := initializeFlowState flow ev.payload.context s
      let targetNodeId := orStr ev.payload.startNodeId flow.start
      match validateNode flow (some targetNodeId) with
      | .error e => (s, .error e)
      | .ok targetNode =>
          let resolvedNode := resolveForward env s.context flow targetNode
          let s := addToHistory resolvedNode (setCurrentNode resolvedNode s)
          let s := if resolvedNode.type = some "task" then
              setLastTaskState resolvedNode s
            else s
          let s := emitNodeEnter resolvedNode flow.id none s
          let s := emitWorkflowEvent .START s
          handleTransition env resolvedNode flow.id .START s

/-- `handlers.handleNext`. -/
def handleNext (env : Env) (ev : FlowEvent) (s : RunState) :
    RunState × Except ErrObj Unit :=
  match s.flow, s.currentNode with
  | some flow, some current =>
      let s := match ev.payload.context with
        | some u => updateContext u s
        | none => s
      let targetNodeId := truthyStr
        (orStrOpt ev.payload.nodeId (getNextNodeId current.id flow s.context))
      match targetNodeId with
      | none => (s, .ok ())
      | some tid =>
          match validateNode flow (some tid) with
          | .error e => (s, .error e)
          | .ok targetNode =>
              let resolvedNode := resolveForward env s.context flow targetNode
              let s := navigateToNodeReal resolvedNode s
              let s := emitNodeEnter resolvedNode flow.id (some current.id) s
              let s := emitEdgeTaken current.id resolvedNode.id flow s
              let s := emitWorkflowEvent .NEXT s
              handleTransition env resolvedNode flow.id .NEXT s
  | _, _ => (s, .ok ())

/-- `handlers.handleClose`. -/
def handleClose (ev : FlowEvent) (s : RunState) :
    RunState × Except ErrObj Unit :=
  let s := match ev.payload.context with
    | some u => updateContext u s
    | none => s
  let s := stopWorkflow s
  let s := emitWorkflowClosed (s.flow.map Flow.id)
    (s.currentNode.map FlowNode.id) s
  let s := emitWorkflowEvent .CLOSE s
  let s := resetState s
  let s := closeAllModalsState s
  (s, .ok ())

/-- `handlers.handleBack`. -/
def handleBack (env : Env) (ev : FlowEvent) (s : RunState) :
    RunState × Except ErrObj Unit :=
  let history := s.history
  match s.flow with
  | none => (s, .ok ())
  | some flow =>
      if history.length ≤ 1 then (s, .ok ())
      else
        let s := match ev.payload.context with
          | some u => updateContext u s
          | none => s
        match resolveBackward history with
        | none => handleClose ev s
        | some previousNode =>
            match navigateBack previousNode history s with
            | (s, .error e) => (s, .error e)
            | (s, .ok _) =>
                match historyLastId history with
                | .error e => (s, .error e)
                | .ok lastId =>
                    let s := emitNodeEnter previousNode flow.id
                      (some lastId) s
                    handleTransition env previousNode flow.id .BACK s

/-- `handlers.handleStartSubflow`. -/
def handleStartSubflow (env : Env) (ev : FlowEvent) (s : RunState) :
    RunState × Except ErrObj Unit :=
  match ev.payload.subflow with
  | none => (s, .error (flowError "flow is required" "FLOW_START_FAILED"))
  | some subflow =>
      match s.flow with
      | none => (s, .error (flowError "no active flow" "FLOW_START_FAILED"))
      | some currentFlow =>
          let currentContext := s.context
          let currentNode := s.currentNode
          let subflowReturnTo : Option String :=
            match ctxFind subflow.globals "returnTo" with
            | some (.vStr str) => some str
            | _ => none
          let targetReturnTo := orStr ev.payload.returnTo
            (orStr subflowReturnTo
              (orStr (currentNode.map FlowNode.id) currentFlow.start))
          let s := pushSubflow currentFlow targetReturnTo currentContext s
          let s := initializeSubflowState subflow
            (mergeCtxOpt currentContext ev.payload.context) s
          let targetStartNodeId := orStr ev.payload.startNodeId subflow.start
          match nodesFind subflow targetStartNodeId with
          | none =>
              (s, .error (flowError "start node not found in subflow"
                "INVALID_NODE_ID"))
          | some startNode =>
              let s := addToHistory startNode (setCurrentNode startNode s)
              let s := emitSubflowStarted subflow s
              let s := emitNodeEnter startNode subflow.id none s
              if shouldOpenModal env startNode then
                awaitOpen (openModalRunner env startNode subflow.id "subflow"
                  ((getCurrentMainModal s).map ModalState.id) s)
              else (s, .ok ())

/-- `handlers.handleNextSubflow`: gated on a non-empty subflow stack; the
explicit or first-valid-edge target is looked up WITHOUT `validateNode`
and navigated to WITHOUT `resolveForward`. -/
def handleNextSubflow (env : Env) (ev : FlowEvent) (s : RunState) :
    RunState × Except ErrObj Unit :=
  if s.subflowStack.length = 0 then (s, .ok ())
  else
    match s.flow, s.currentNode with
    | some flow, some current =>
        let s := match ev.payload.context with
          | some u => updateContext u s
          | none => s
        let targetNodeId := truthyStr
          (orStrOpt ev.payload.nodeId
            (getNextNodeId current.id flow s.context))
        match targetNodeId with
        | none => (s, .ok ())
        | some tid =>
            match nodesFind flow tid with
            | none =>
                -- `navigateToNode(undefined)`: mutate, then TypeError.
                navigateToNode none s
            | some targetNode =>
                let s := navigateToNodeReal targetNode s
                let s := emitNodeEnter targetNode flow.id (some current.id) s
                let s := emitWorkflowEvent .NEXT_SUBFLOW s
                let s := scheduleCloseModals s
                if shouldOpenModal env targetNode then
                  awaitOpen (openModalRunner env targetNode flow.id "subflow"
                    ((getCurrentMainModal s).map ModalState.id) s)
                else (s, .ok ())
    | _, _ => (s, .ok ())

/-- `handlers.handleBackSubflow`: gated like NEXT_SUBFLOW; a missing
predecessor is a plain no-op here (no degradation to CLOSE). -/
def handleBackSubflow (env : Env) (ev : FlowEvent) (s : RunState) :
    RunState × Except ErrObj Unit :=
  if s.subflowStack.length = 0 then (s, .ok ())
  else
    let history := s.history
    match s.flow with
    | none => (s, .ok ())
    | some flow =>
        if history.length ≤ 1 then (s, .ok ())
        else
          let s := match ev.payload.context with
            | some u => updateContext u s
            | none => s
          match resolveBackward history with
          | none => (s, .ok ())
          | some previousNode =>
              match navigateBack previousNode history s with
              | (s, .error e) => (s, .error e)
              | (s, .ok _) =>
                  match historyLastId history with
                  | .error e => (s, .error e)
                  | .ok lastId =>
                      let s := emitNodeEnter previousNode flow.id
                        (some lastId) s
                      let s := emitWorkflowEvent .BACK_SUBFLOW s
                      let s := scheduleCloseModals s
                      if shouldOpenModal env previousNode then
                        awaitOpen (openModalRunner env previousNode flow.id
                          "subflow" ((getCurrentMainModal s).map ModalState.id)
                          s)
                      else (s, .ok ())

/-- `handlers.handleCloseSubflow`. -/
def handleCloseSubflow (ev : FlowEvent) (s : RunState) :
    RunState × Except ErrObj Unit :=
  if s.subflowStack.length = 0 then (s, .ok ())
  else
    let currentSubflow := s.flow
    let popped := popSubflow ev.payload.context s
    match popped.2 with
    | none => (popped.1, .ok ())
    | some entry =>
        let s := popped.1
        let parentFlow := entry.flow
        let fallbackReturnId := parentFlow.start
        let step1 : Option String × Option FlowNode :=
          match truthyStr (some entry.returnTo) with
          | some rid =>
              match nodesFind parentFlow rid with
              | some n => (some rid, some n)
              | none => (none, none)
          | none => (none, none)
        let resolved : Option String × Option FlowNode :=
          match step1.1 with
          | some _ => step1
          | none =>
              match truthyStr (some fallbackReturnId) with
              | some fid => (some fid, nodesFind parentFlow fid)
              | none => step1
        match resolved.2 with
        | some returnNode =>
            let s := addToHistory returnNode (setCurrentNode returnNode s)
            let s := emitNodeEnter returnNode parentFlow.id none s
            let s := emitSubflowClosed (currentSubflow.map Flow.id) s
            let s := scheduleCloseModals s
            (s, .ok ())
        | none =>
            let s := emitSubflowClosed (currentSubflow.map Flow.id) s
            let s := scheduleCloseModals s
            (s, .ok ())

/-- `handlers.handleJumpTo`. -/
def handleJumpTo (env : Env) (ev : FlowEvent) (s : RunState) :
    RunState × Except ErrObj Unit :=
  match truthyStr ev.payload.targetNodeId with
  | none => (s, .error (flowError "target node required" "INVALID_NODE_ID"))
  | some targetNodeId =>
      match s.flow, s.currentNode with
      | some flow, some current =>
          let s := match ev.payload.context with
            | some u => updateContext u s
            | none => s
          match validateNode flow (some targetNodeId) with
          | .error e => (s, .error e)
          | .ok targetNode =>
              let resolvedNode := resolveForward env s.context flow targetNode
              let s := navigateToNodeReal resolvedNode s
              let s := emitNodeEnter resolvedNode flow.id (some current.id) s
              let s := scheduleCloseModals s
              if shouldOpenModal env resolvedNode then
                awaitOpen (openModalRunner env resolvedNode flow.id "main"
                  none s)
              else (s, .ok ())
      | _, _ => (s, .ok ())

/-- `handlers.handleResume`. -/
def handleResume (ev : FlowEvent) (s : RunState) :
    RunState × Except ErrObj Unit :=
  match s.flow with
  | none => (s, .error (flowError "no flow to resume" "FLOW_START_FAILED"))
  | some _ =>
      let s := match ev.payload.context with
        | some u => updateContext u s
        | none => s
      let s := startWorkflow s
      (emitWorkflowEvent .RESUME s, .ok ())

/-- `handlers.handleFlowSync` (identical to RESUME up to the emitted
command). -/
def handleFlowSync (ev : FlowEvent) (s : RunState) :
    RunState × Except ErrObj Unit :=
  match s.flow with
  | none => (s, .error (flowError "no flow to resume" "FLOW_START_FAILED"))
  | some _ =>
      let s := match ev.payload.context with
        | some u => updateContext u s
        | none => s
      let s := startWorkflow s
      (emitWorkflowEvent .FLOW_SYNC s, .ok ())

/-- `handlers.handleReset`. -/
def handleReset (s : RunState) : RunState × Except ErrObj Unit :=
  (emitWorkflowClosed (some "reset") none (resetState s), .ok ())

/-- The ERROR path shared by the ERROR handler and `dispatch`'s two
failure routes: record the error, stop the running flag, emit the
`flow.error` telemetry record.  Current node and history are untouched. -/
def handleErrorCore (e : ErrObj) (s : RunState) : RunState :=
  emitWorkflowError e (stopWorkflow (setErrorState e s))

/-- `handlers.handleError` (a missing payload error wraps as
`new Error(String(undefined))`). -/
def handleError (ev : FlowEvent) (s : RunState) :
    RunState × Except ErrObj Unit :=
  let errorObj := ev.payload.error.getD ⟨"Error", "undefined", none⟩
  (handleErrorCore errorObj s, .ok ())

/-- The error dispatched for a command string with no handler. -/
def unknownCommandError (raw : String) : ErrObj :=
  flowError ("unknown command " ++ raw) "COMMAND_EXECUTION_FAILED"

/-- The `commandHandlers` lookup followed by the handler body: a command
outside the record surfaces as an error, exactly like a thrown handler
failure. -/
def runHandler (env : Env) (ev : FlowEvent) (s : RunState) :
    RunState × Except ErrObj Unit :=
  match ev.command with
  | .START => handleStart env ev s
  | .NEXT => handleNext env ev s
  | .BACK => handleBack env ev s
  | .CLOSE => handleClose ev s
  | .START_SUBFLOW => handleStartSubflow env ev s
  | .NEXT_SUBFLOW => handleNextSubflow env ev s
  | .BACK_SUBFLOW => handleBackSubflow env ev s
  | .CLOSE_SUBFLOW => handleCloseSubflow ev s
  | .RESUME => handleResume ev s
  | .FLOW_SYNC => handleFlowSync ev s
  | .JUMP_TO => handleJumpTo env ev s
  | .RESET => handleReset s
  | .ERROR => handleError ev s
  | .UNKNOWN raw => (s, .error (unknownCommandError raw))

/-- `FlowRunnerService.dispatch`: a falsy event returns immediately; the
error slot is cleared; an unrecognized command or any failure produced by
the handler (thrown synchronously or as a rejected promise) is routed
through the ERROR path instead of propagating to the caller. -/
def dispatch (env : Env) (ev : Option FlowEvent) (s : RunState) : RunState :=
  match ev with
  | none => s
  | some ev =>
      let s := { s with error := none }
      match runHandler env ev s with
      | (t, .ok _) => t
      | (t, .error e) => handleErrorCore e t

-- ========== INVARIANTS ==========

/-- The spec's history/current relation, literally: the last history entry
is the current node. -/
def lastEntryIsCurrent (s : RunState) : Prop :=
  s.history.getLast? = some s.currentNode

/-- The id-level history/current relation: the last history entry carries
the id of the current node (`none` matching a `none` current). -/
def lastEntryMatchesCurrentId (s : RunState) : Prop :=
  s.history.getLast?.map (Option.map FlowNode.id) =
    some (s.currentNode.map FlowNode.id)

/-- Running-state invariant at the id level. -/
def InvId (s : RunState) : Prop :=
  s.isRunning = true → lastEntryMatchesCurrentId s

instance (s : RunState) : Decidable (lastEntryIsCurrent s) := by
  unfold lastEntryIsCurrent; infer_instance

instance (s : RunState) : Decidable (lastEntryMatchesCurrentId s) := by
  unfold lastEntryMatchesCurrentId; infer_instance

instance (s : RunState) : Decidable (InvId s) := by
  unfold InvId; infer_instance

/-- The navigation core of a state: every field except the presentation
layer bookkeeping (modals, sticky root, modal counter) and the output
streams.  Presentation and emission steps preserve it. -/
def core (s : RunState) :=
  (s.currentNode, s.lastTask, s.history, s.flow, s.context, s.isRunning,
   s.subflowStack, s.error)

-- ========== CONCRETE SCENARIOS ==========

/-- Desktop environment with components registered for the `task` and
`guide` node types. -/
def envD : Env := ⟨false, fun sid => sid = "task" ∨ sid = "guide"⟩

/-- The §8 scenario flow: a (task, presentable), b (guide, showOn none),
c (task, presentable); edges a→b and b→c with the literal "true". -/
def nodeA : FlowNode := { id := "a", type := some "task" }

def nodeB : FlowNode :=
  { id := "b", type := some "guide", showOn := some "none" }

def nodeC : FlowNode := { id := "c", type := some "task" }

def flowABC : Flow :=
  { id := "F", start := "a",
    nodes := [("a", nodeA), ("b", nodeB), ("c", nodeC)],
    edges := [{ source := "a", target := "b",
                condition := some (.condStr "true") },
              { source := "b", target := "c",
                condition := some (.condStr "true") }] }

/-- The idle initial state. -/
def state0 : RunState := {}

/-- §8 scenario: after START. -/
def abcStarted : RunState :=
  dispatch envD (some ⟨.START, { flow := some flowABC }⟩) state0

/-- §8 scenario: after one NEXT. -/
def abcNexted : RunState := dispatch envD (some ⟨.NEXT, {}⟩) abcStarted

/-- A two-node cycle of non-presentable nodes, exercising the 100-hop
cap. -/
def cycU : FlowNode := { id := "u", type := some "task", showOn := some "none" }

def cycV : FlowNode := { id := "v", type := some "task", showOn := some "none" }

def cycFlow : Flow :=
  { id := "CYC", start := "u", nodes := [("u", cycU), ("v", cycV)],
    edges := [{ source := "u", target := "v" },
              { source := "v", target := "u" }] }

/-- Parent flow for the subflow round-trip runs: nodes x and y (tasks),
one edge x→y. -/
def xP : FlowNode := { id := "x", type := some "task" }

def yP : FlowNode := { id := "y", type := some "task" }

/-- A subflow whose single node reuses the parent's node id "x" but with a
different node shape (a guide). -/
def xS : FlowNode := { id := "x", type := some "guide" }

def flowP : Flow :=
  { id := "P", start := "x", nodes := [("x", xP), ("y", yP)],
    edges := [{ source := "x", target := "y" }] }

def flowS : Flow :=
  { id := "S", start := "x", nodes := [("x", xS)], edges := [] }

/-- Round-trip run, step 1: START the parent with context a=1. -/
def rtRun1 : RunState :=
  dispatch envD
    (some ⟨.START, { flow := some flowP,
                     context := some [("a", .vNum (.int 1))] }⟩) state0

/-- Step 2: START_SUBFLOW with payload context b=2; the subflow's final
context is a=1, b=2. -/
def rtRun2 : RunState :=
  dispatch envD
    (some ⟨.START_SUBFLOW, { subflow := some flowS,
                             context := some [("b", .vNum (.int 2))] }⟩)
    rtRun1

/-- Step 3: CLOSE_SUBFLOW with an empty payload. -/
def rtRun3 : RunState := dispatch envD (some ⟨.CLOSE_SUBFLOW, {}⟩) rtRun2

/-- Step 4: NEXT (x → y in the parent). -/
def rtRun4 : RunState := dispatch envD (some ⟨.NEXT, {}⟩) rtRun3

/-- Step 5: BACK. -/
def rtRun5 : RunState := dispatch envD (some ⟨.BACK, {}⟩) rtRun4

/-- Subflow with a non-presentable middle node, for comparing NEXT_SUBFLOW
with NEXT. -/
def subN1 : FlowNode := { id := "s1", type := some "task" }

def subN2 : FlowNode :=
  { id := "s2", type := some "guide", showOn := some "none" }

def subN3 : FlowNode := { id := "s3", type := some "task" }

def flowSkip : Flow :=
  { id := "S2", start := "s1",
    nodes := [("s1", subN1), ("s2", subN2), ("s3", subN3)],
    edges := [{ source := "s1", target := "s2" },
              { source := "s2", target := "s3" }] }

/-- Inside `flowSkip` after START(parent) and START_SUBFLOW. -/
def skipRun : RunState :=
  dispatch envD (some ⟨.START_SUBFLOW, { subflow := some flowSkip }⟩)
    (dispatch envD (some ⟨.START, { flow := some flowP }⟩) state0)

/-- Flow for the explicit-target claim: the only edge a→b carries a
condition that is false under the empty context. -/
def gateA : FlowNode := { id := "a", type := some "task" }

def gateB : FlowNode := { id := "b", type := some "task" }

def flowGate : Flow :=
  { id := "G", start := "a", nodes := [("a", gateA), ("b", gateB)],
    edges := [{ source := "a", target := "b",
                condition := some (.condObj "go" "===" (.vBool true)) }] }

/-- `flowGate` started (current node "a", empty context). -/
def gateStarted : RunState :=
  dispatch envD (some ⟨.START, { flow := some flowGate }⟩) state0

-- ========== HELPER LEMMAS ==========

theorem navigateToNode_some (n : FlowNode) (s : RunState) :
    navigateToNode (some n) s = (navigateToNodeReal n s, .ok ()) := rfl

theorem ctxHasKey_of_mem (u : Ctx) (k : String) (v : JsValue)
    (h : (k, v) ∈ u) : ctxHasKey u k = true := by
  induction u with
  | nil => cases h
  | cons p rest ih =>
      cases h with
      | head => simp [ctxHasKey, ctxFind]
      | tail _ hmem =>
          by_cases hk : p.1 = k
          · simp [ctxHasKey, ctxFind, hk]
          · simpa [ctxHasKey, ctxFind, hk] using ih hmem

theorem mergeCtx_idem (c u : Ctx) : mergeCtx (mergeCtx c u) u = mergeCtx c u := by
  unfold mergeCtx
  rw [List.filter_append, List.filter_filter]
  have hu : (u.filter fun p => ! ctxHasKey u p.1) = [] := by
    rw [List.filter_eq_nil_iff]
    intro p hp
    simp [ctxHasKey_of_mem u p.1 p.2 hp]
  simp [hu]

theorem updateContext_idem (u : Ctx) (s : RunState) :
    updateContext u (updateContext u s) = updateContext u s := by
  simp [updateContext, mergeCtx_idem]

theorem insertByLevel_any (l : List ModalState) (m : ModalState)
    (p : ModalState → Bool) :
    (insertByLevel l m).any p = (l.any p || p m) := by
  induction l with
  | nil => simp [insertByLevel]
  | cons x xs ih =>
      by_cases h : x.level ≤ m.level
      · simp [insertByLevel, h, ih, Bool.or_assoc]
      · simp [insertByLevel, h]
        cases p m <;> cases p x <;> simp

theorem sortByLevel_any (l : List ModalState) (p : ModalState → Bool) :
    (sortByLevel l).any p = l.any p := by
  unfold sortByLevel
  suffices h : ∀ acc : List ModalState,
      (l.foldl insertByLevel acc).any p = (acc.any p || l.any p) by
    simpa using h []
  induction l with
  | nil => intro acc; simp
  | cons x xs ih =>
      intro acc
      simp only [List.foldl_cons, ih, insertByLevel_any, List.any_cons]
      cases p x <;> cases acc.any p <;> simp

theorem core_emitWorkflowEvent (c : FlowCommand) (s : RunState) :
    core (emitWorkflowEvent c s) = core s := rfl

theorem core_emitNodeEnter (n : FlowNode) (fid : String)
    (pid : Option String) (s : RunState) :
    core (emitNodeEnter n fid pid s) = core s := rfl

theorem core_emitEdgeTaken (a b : String) (f : Flow) (s : RunState) :
    core (emitEdgeTaken a b f s) = core s := by
  unfold emitEdgeTaken
  cases f.edges.find? (fun e => e.source = a ∧ e.target = b) <;> rfl

theorem core_ctrlOpenModal (c n f t : String) (p : Option String)
    (s : RunState) : core (ctrlOpenModal c n f t p s) = core s := rfl

theorem core_scheduleClose (s : RunState) :
    core (scheduleCloseModals s) = core s := rfl

theorem core_openModalRunner (env : Env) (node : FlowNode) (f t : String)
    (p : Option String) (s : RunState) :
    core (openModalRunner env node f t p s).1 = core s := by
  unfold openModalRunner
  dsimp only
  split
  · rfl
  · split <;> rfl

theorem core_awaitOpen_open (env : Env) (node : FlowNode) (f t : String)
    (p : Option String) (s : RunState) :
    core (awaitOpen (openModalRunner env node f t p s)).1 = core s :=
  core_openModalRunner env node f t p s

theorem core_layerStep (env : Env) (node : FlowNode) (s : RunState) :
    core (layerStep env node s).1 = core s := by
  unfold layerStep
  split
  · split
    · rfl
    · split
      · dsimp only
        split <;> rfl
      · rfl
  · rfl

theorem core_handleTransition (env : Env) (node : FlowNode) (fid : String)
    (a : FlowCommand) (s : RunState) :
    core (handleTransition env node fid a s).1 = core s := by
  unfold handleTransition
  dsimp only
  have hb : (if a = FlowCommand.BACK then scheduleCloseModals s else s) = s := by
    split <;> rfl
  rw [hb]
  split
  · exact core_layerStep env node s
  · rw [core_awaitOpen_open, core_layerStep]

theorem core_fields {a b : RunState} (h : core a = core b) :
    a.currentNode = b.currentNode ∧ a.lastTask = b.lastTask ∧
    a.history = b.history ∧ a.flow = b.flow ∧ a.context = b.context ∧
    a.isRunning = b.isRunning ∧ a.subflowStack = b.subflowStack ∧
    a.error = b.error := by
  simpa [core, Prod.ext_iff] using h

theorem handleErrorCore_fields (e : ErrObj) (t : RunState) :
    (handleErrorCore e t).currentNode = t.currentNode ∧
    (handleErrorCore e t).history = t.history ∧
    (handleErrorCore e t).lastTask = t.lastTask ∧
    (handleErrorCore e t).flow = t.flow ∧
    (handleErrorCore e t).context = t.context ∧
    (handleErrorCore e t).subflowStack = t.subflowStack ∧
    (handleErrorCore e t).isRunning = false ∧
    (handleErrorCore e t).error = some e ∧
    (handleErrorCore e t).modals = t.modals ∧
    (handleErrorCore e t).telemetry = t.telemetry ++ [flowErrorRecord e t] := by
  simp [handleErrorCore, emitWorkflowError, stopWorkflow, setErrorState,
    flowErrorRecord]

-- ========== CLAIM THEOREMS ==========

/-- C2: Edge condition evaluation is a total, deterministic function of
(condition, context) that fails closed.  `isEdgeValid` is a Lean function,
hence total (never throws) and deterministic; this theorem states the
remaining content: (1) an edge with no condition or with the literal
condition "true" is always valid; (2) a structured condition is decided by
`evaluateObjectCondition`; (3) `evaluateObjectCondition` implements the
direct operator semantics with numeric coercion for the ordering
operators; (4) any evaluation failure of a string condition (missing key,
malformed expression — `evalJsExpr = none`) makes the edge invalid rather
than raising. -/
theorem C2_isEdgeValid_total_fail_closed :
    (∀ (e : FlowEdge) (ctx : Ctx),
        e.condition = none ∨ e.condition = some (.condStr "true") →
        isEdgeValid e ctx = true) ∧
    (∀ (e : FlowEdge) (ctx : Ctx) (f op : String) (v : JsValue),
        e.condition = some (.condObj f op v) →
        isEdgeValid e ctx = evaluateObjectCondition f op v ctx) ∧
    (∀ (f : String) (v : JsValue) (ctx : Ctx),
        evaluateObjectCondition f "==" v ctx = looseEq (ctxGet ctx f) v ∧
        evaluateObjectCondition f "===" v ctx = strictEq (ctxGet ctx f) v ∧
        evaluateObjectCondition f "!=" v ctx = !(looseEq (ctxGet ctx f) v) ∧
        evaluateObjectCondition f "!==" v ctx = !(strictEq (ctxGet ctx f) v) ∧
        evaluateObjectCondition f ">" v ctx =
          (toNumber (ctxGet ctx f)).numGt (toNumber v) ∧
        evaluateObjectCondition f ">=" v ctx =
          (toNumber (ctxGet ctx f)).numGe (toNumber v) ∧
        evaluateObjectCondition f "<" v ctx =
          (toNumber (ctxGet ctx f)).numLt (toNumber v) ∧
        evaluateObjectCondition f "<=" v ctx =
          (toNumber (ctxGet ctx f)).numLe (toNumber v)) ∧
    (∀ (e : FlowEdge) (str : String) (ctx : Ctx),
        e.condition = some (.condStr str) → str ≠ "" → str ≠ "true" →
        evalJsExpr str ctx = none → isEdgeValid e ctx = false) := by
  refine ⟨?_, ?_, ?_, ?_⟩
  · intro e ctx h
    cases h with
    | inl h => simp [isEdgeValid, conditionFalsy, h]
    | inr h => simp [isEdgeValid, conditionFalsy, h]
  · intro e ctx f op v h
    simp [isEdgeValid, conditionFalsy, h, evaluateCondition]
  · intro f v ctx
    refine ⟨?_, ?_, ?_, ?_, ?_, ?_, ?_, ?_⟩ <;> simp [evaluateObjectCondition]
  · intro e str ctx h hne htrue heval
    simp [isEdgeValid, conditionFalsy, h, hne, htrue, evaluateCondition,
      evaluateStringCondition, heval]

/-- Witness for C2 at concrete inputs: the always-true cases, an object
condition, and a failing string condition. -/
theorem C2_isEdgeValid_witness :
    isEdgeValid { source := "a", target := "b" } [] = true ∧
    isEdgeValid { source := "a", target := "b",
                  condition := some (.condObj "k" ">" (.vNum (.int 1))) }
      [("k", .vNum (.int 2))] =
      evaluateObjectCondition "k" ">" (.vNum (.int 1))
        [("k", .vNum (.int 2))] ∧
    isEdgeValid { source := "a", target := "b",
                  condition := some (.condStr "missingKey") } [] = false := by
  refine ⟨?_, ?_, ?_⟩
  · exact C2_isEdgeValid_total_fail_closed.1 _ [] (Or.inl rfl)
  · exact C2_isEdgeValid_total_fail_closed.2.1 _ _ "k" ">" _ rfl
  · exact C2_isEdgeValid_total_fail_closed.2.2.2 _ "missingKey" [] rfl
      (by decide) (by decide) (by decide)

/-- C3: `resolveForward` returns a presentable node unchanged; when the
node is not presentable and has no valid outgoing edge it returns the last
node reached (the node itself); the walk is bounded by the fixed 100-hop
cap, so it terminates even on a cyclic graph (`cycFlow`, where the walk
exhausts the cap and returns the node it stopped on); and the §8 scenario
holds: START on `flowABC` lands on "a", one NEXT skips the
non-presentable "b" and lands on "c" with history ["a", "c"]. -/
theorem C3_resolveForward_cap_and_scenario :
    (∀ (env : Env) (ctx : Ctx) (flow : Flow) (n : FlowNode),
        shouldOpenModal env n = true → resolveForward env ctx flow n = n) ∧
    (∀ (env : Env) (ctx : Ctx) (flow : Flow) (n : FlowNode),
        shouldOpenModal env n = false →
        getNextNodeId n.id flow ctx = none →
        resolveForward env ctx flow n = n) ∧
    (abcStarted.currentNode = some nodeA ∧
     abcStarted.history = [some nodeA] ∧
     abcNexted.currentNode = some nodeC ∧
     abcNexted.history = [some nodeA, some nodeC]) ∧
    resolveForward envD [] cycFlow cycU = cycU := by
  refine ⟨?_, ?_, by decide, by decide⟩
  · intro env ctx flow n h
    unfold resolveForward
    rw [show (100 : Nat) = 99 + 1 from rfl]
    simp [resolveForwardAux, h]
  · intro env ctx flow n h hnext
    unfold resolveForward
    rw [show (100 : Nat) = 99 + 1 from rfl]
    simp [resolveForwardAux, h, hnext]

/-- Witness for C3: the presentable node "a" of the scenario flow resolves
to itself. -/
theorem C3_resolveForward_witness :
    resolveForward envD [] flowABC nodeA = nodeA :=
  C3_resolveForward_cap_and_scenario.1 envD [] flowABC nodeA (by decide)

/-- C8: opening a presentation layer for a (nodeId, flowId) pair that
already has an open layer is an idempotent no-op.  Part 1: when a layer
entry for the pair exists, the open call returns a not-dismissed result
and leaves the state (in particular the layer map) unchanged.  Part 2: a
successful first open is immediately followed by exactly this behaviour on
a second attempt for the same pair, so no second layer entry is ever
created. -/
theorem C8_openModal_idempotent :
    (∀ (env : Env) (node : FlowNode) (flowId type : String)
        (pid : Option String) (s : RunState),
        (s.modals.filter (fun m => m.flowId = flowId)).any
            (fun m => m.nodeId = node.id) = true →
        openModalRunner env node flowId type pid s =
          (s, .ok (some ⟨false⟩))) ∧
    (∀ (env env' : Env) (node : FlowNode) (flowId type type' : String)
        (pid pid' : Option String) (s s' : RunState),
        openModalRunner env node flowId type pid s = (s', .ok none) →
        openModalRunner env' node flowId type' pid' s' =
          (s', .ok (some ⟨false⟩))) := by
  constructor
  · intro env node flowId type pid s h
    unfold openModalRunner
    dsimp only
    have hg : (getModalsByFlow flowId s).any
        (fun m => m.nodeId = node.id) = true := by
      rw [getModalsByFlow, sortByLevel_any]; exact h
    rw [if_pos hg]
  · intro env env' node flowId type type' pid pid' s s' h
    unfold openModalRunner at h ⊢
    dsimp only at h ⊢
    by_cases hg : (getModalsByFlow flowId s).any
        (fun m => m.nodeId = node.id) = true
    · rw [if_pos hg] at h
      simp [Prod.ext_iff] at h
    · rw [if_neg hg] at h
      cases hc : getComponent env node with
      | error e => rw [hc] at h; simp [Prod.ext_iff] at h
      | ok c =>
          rw [hc] at h
          have hs' : s' = ctrlOpenModal c node.id flowId type pid s := by
            have := congrArg Prod.fst h
            simpa using this.symm
          have hg2 : (getModalsByFlow flowId s').any
              (fun m => m.nodeId = node.id) = true := by
            rw [hs', getModalsByFlow, sortByLevel_any]
            simp [ctrlOpenModal]
          rw [if_pos hg2]

/-- Witness for C8: after the scenario START (which opened a layer for
node "a" of flow "F"), a second open attempt for the same pair is the
idempotent no-op. -/
theorem C8_openModal_witness :
    openModalRunner envD nodeA "F" "main" none abcStarted =
      (abcStarted, .ok (some ⟨false⟩)) :=
  C8_openModal_idempotent.1 envD nodeA "F" "main" none abcStarted (by decide)

/-- C1: `dispatch` never raises synchronously.  Part 1: the ERROR path
(`handleErrorCore`) records the error on state, sets the running flag to
false, emits a `flow.error` telemetry record, and leaves the current node
and history unmutated.  Part 2: an unrecognized command is redirected into
exactly that path with a `COMMAND_EXECUTION_FAILED`-coded `FlowError`, so
current node and history survive unchanged.  Part 3: for every event,
`dispatch` is the totalization of the command handler — a handler failure
is routed into the ERROR path instead of propagating to the caller. -/
theorem C1_dispatch_error_path :
    (∀ (e : ErrObj) (t : RunState),
        (handleErrorCore e t).currentNode = t.currentNode ∧
        (handleErrorCore e t).history = t.history ∧
        (handleErrorCore e t).isRunning = false ∧
        (handleErrorCore e t).error = some e ∧
        (handleErrorCore e t).telemetry =
          t.telemetry ++ [flowErrorRecord e t] ∧
        (flowErrorRecord e t).type = "flow.error") ∧
    (∀ (env : Env) (raw : String) (p : FlowPayload) (s : RunState),
        dispatch env (some ⟨.UNKNOWN raw, p⟩) s =
          handleErrorCore (unknownCommandError raw)
            { s with error := none } ∧
        (unknownCommandError raw).code = some "COMMAND_EXECUTION_FAILED" ∧
        (dispatch env (some ⟨.UNKNOWN raw, p⟩) s).currentNode =
          s.currentNode ∧
        (dispatch env (some ⟨.UNKNOWN raw, p⟩) s).history = s.history ∧
        (dispatch env (some ⟨.UNKNOWN raw, p⟩) s).isRunning = false ∧
        (dispatch env (some ⟨.UNKNOWN raw, p⟩) s).error =
          some (unknownCommandError raw)) ∧
    (∀ (env : Env) (ev : FlowEvent) (s : RunState),
        dispatch env (some ev) s =
          match runHandler env ev { s with error := none } with
          | (t, .ok _) => t
          | (t, .error e) => handleErrorCore e t) := by
  refine ⟨?_, ?_, ?_⟩
  · intro e t
    obtain ⟨h1, h2, _, _, _, _, h7, h8, _, h10⟩ := handleErrorCore_fields e t
    exact ⟨h1, h2, h7, h8, h10, rfl⟩
  · intro env raw p s
    refine ⟨rfl, rfl, ?_, ?_, ?_, ?_⟩
    · exact (handleErrorCore_fields _ _).1
    · exact (handleErrorCore_fields _ _).2.1
    · exact (handleErrorCore_fields _ _).2.2.2.2.2.2.1
    · exact (handleErrorCore_fields _ _).2.2.2.2.2.2.2.1
  · intro env ev s
    rfl

-- ========== LEMMAS ON HISTORY INDEXING ==========

theorem findIndexById_ok_of_all_some (h : List (Option FlowNode))
    (id : String) (hall : ∀ x ∈ h, x ≠ none) :
    ∃ r, findIndexById h id = .ok r := by
  induction h with
  | nil => exact ⟨none, rfl⟩
  | cons x rest ih =>
      cases x with
      | none => exact absurd rfl (hall none (List.mem_cons_self _ _))
      | some n =>
          by_cases hn : n.id = id
          · exact ⟨some 0, by simp [findIndexById, hn]⟩
          · obtain ⟨r, hr⟩ :=
              ih (fun x hx => hall x (List.mem_cons_of_mem _ hx))
            cases r with
            | none => exact ⟨none, by simp [findIndexById, hn, hr]⟩
            | some k => exact ⟨some (k + 1), by simp [findIndexById, hn, hr]⟩

theorem findIndexById_some_of_mem (h : List (Option FlowNode)) (id : String)
    (j : Nat) (q : FlowNode) (hq : h.get? j = some (some q))
    (hid : q.id = id) (hall : ∀ x ∈ h, x ≠ none) :
    ∃ i, findIndexById h id = .ok (some i) ∧ i ≤ j := by
  induction h generalizing j with
  | nil => simp at hq
  | cons x rest ih =>
      cases x with
      | none => exact absurd rfl (hall none (List.mem_cons_self _ _))
      | some n =>
          by_cases hn : n.id = id
          · exact ⟨0, by simp [findIndexById, hn], Nat.zero_le j⟩
          · cases j with
            | zero =>
                simp at hq
                exact absurd (hq ▸ hid) hn
            | succ j' =>
                simp only [List.get?_cons_succ] at hq
                obtain ⟨i, hfi, hle⟩ := ih j' hq
                  (fun x hx => hall x (List.mem_cons_of_mem _ hx))
                exact ⟨i + 1, by simp [findIndexById, hn, hfi],
                  Nat.succ_le_succ hle⟩

theorem findIndexById_found (h : List (Option FlowNode)) (id : String)
    (i : Nat) (hf : findIndexById h id = .ok (some i)) :
    ∃ q, h.get? i = some (some q) ∧ q.id = id := by
  induction h generalizing i with
  | nil => simp [findIndexById] at hf
  | cons x rest ih =>
      cases x with
      | none => simp [findIndexById] at hf
      | some n =>
          by_cases hn : n.id = id
          · simp [findIndexById, hn] at hf
            exact ⟨n, by simp [← hf], hn⟩
          · cases hr : findIndexById rest id with
            | error e => simp [findIndexById, hn, hr] at hf
            | ok r =>
                cases r with
                | none => simp [findIndexById, hn, hr] at hf
                | some k =>
                    simp [findIndexById, hn, hr] at hf
                    obtain ⟨q, hq, hqid⟩ := ih k hr
                    refine ⟨q, ?_, hqid⟩
                    rw [← hf, List.get?_cons_succ]
                    exact hq

theorem take_succ_getLast {α : Type} (l : List α) (i : Nat) (x : α)
    (h : l.get? i = some x) : (l.take (i + 1)).getLast? = some x := by
  induction l generalizing i with
  | nil => simp at h
  | cons a t ih =>
      cases i with
      | zero =>
          simp at h
          simp [h]
      | succ i' =>
          simp only [List.get?_cons_succ] at h
          have ht := ih i' h
          simp only [List.take_succ_cons]
          cases htake : t.take (i' + 1) with
          | nil => rw [htake] at ht; simp at ht
          | cons b l' =>
              rw [htake] at ht
              rw [List.getLast?_cons_cons]
              exact ht

theorem handleClose_updateContext (ev : FlowEvent) (u : Ctx) (s : RunState)
    (hp : ev.payload.context = some u) :
    handleClose ev (updateContext u s) = handleClose ev s := by
  unfold handleClose
  rw [hp]
  dsimp only
  rw [updateContext_idem]

theorem currentNode_after_transition (env : Env) (prev : FlowNode)
    (fid : String) (a : FlowCommand) (pid : Option String) (t : RunState) :
    (handleTransition env prev fid a (emitNodeEnter prev fid pid t)).1.currentNode
      = t.currentNode := by
  have h1 := core_fields (core_handleTransition env prev fid a
    (emitNodeEnter prev fid pid t))
  have h2 := core_fields (core_emitNodeEnter prev fid pid t)
  rw [h1.1, h2.1]

/-- The navigation fields of a dispatch result are those of the handler
result: the ERROR path touches none of them. -/
theorem dispatch_nav_fields (env : Env) (ev : FlowEvent) (s : RunState) :
    (dispatch env (some ev) s).currentNode =
      (runHandler env ev { s with error := none }).1.currentNode ∧
    (dispatch env (some ev) s).history =
      (runHandler env ev { s with error := none }).1.history ∧
    (dispatch env (some ev) s).flow =
      (runHandler env ev { s with error := none }).1.flow ∧
    (dispatch env (some ev) s).context =
      (runHandler env ev { s with error := none }).1.context ∧
    (dispatch env (some ev) s).subflowStack =
      (runHandler env ev { s with error := none }).1.subflowStack ∧
    (dispatch env (some ev) s).lastTask =
      (runHandler env ev { s with error := none }).1.lastTask := by
  unfold dispatch
  dsimp only
  cases hx : runHandler env ev { s with error := none } with
  | mk t r =>
      cases r with
      | ok a => exact ⟨rfl, rfl, rfl, rfl, rfl, rfl⟩
      | error e =>
          obtain ⟨h1, h2, h3, h4, h5, h6, _⟩ := handleErrorCore_fields e t
          exact ⟨h1, h2, h4, h5, h6, h3⟩

theorem updateContext_keeps (u : Ctx) (s : RunState) :
    (updateContext u s).history = s.history ∧
    (updateContext u s).flow = s.flow ∧
    (updateContext u s).currentNode = s.currentNode ∧
    (updateContext u s).isRunning = s.isRunning ∧
    (updateContext u s).subflowStack = s.subflowStack := by
  simp [updateContext]

/-- C7: dispatching BACK with history length at most one (or without an
active flow) is a no-op up to the error-slot clear that `dispatch` always
performs; with a longer history `resolveBackward` yields the entry
directly before the last one; when that entry is falsy BACK degrades to
CLOSE on the same payload; and when it is a node, BACK navigates to it. -/
theorem C7_back_noop_and_degrade :
    (∀ (env : Env) (p : FlowPayload) (s : RunState),
        s.history.length ≤ 1 ∨ s.flow = none →
        dispatch env (some ⟨.BACK, p⟩) s = { s with error := none }) ∧
    (∀ (h : List (Option FlowNode)), 1 < h.length →
        resolveBackward h = (h.get? (h.length - 2)).getD none) ∧
    (∀ (env : Env) (p : FlowPayload) (s : RunState) (flow : Flow),
        s.flow = some flow → 1 < s.history.length →
        s.history.get? (s.history.length - 2) = some none →
        dispatch env (some ⟨.BACK, p⟩) s =
          dispatch env (some ⟨.CLOSE, p⟩) s) ∧
    (∀ (env : Env) (p : FlowPayload) (s : RunState) (flow : Flow)
        (prev : FlowNode),
        s.flow = some flow → 1 < s.history.length →
        s.history.get? (s.history.length - 2) = some (some prev) →
        (∀ x ∈ s.history, x ≠ none) →
        (dispatch env (some ⟨.BACK, p⟩) s).currentNode = some prev) := by
  refine ⟨?_, ?_, ?_, ?_⟩
  · intro env p s h
    unfold dispatch runHandler handleBack
    dsimp only
    cases hf : s.flow with
    | none => simp
    | some flow =>
        have hlen : s.history.length ≤ 1 := by
          cases h with
          | inl h => exact h
          | inr h => rw [hf] at h; cases h
        simp [hlen]
  · intro h hlen
    unfold resolveBackward
    rw [if_neg (by omega)]
  · intro env p s flow hf hlen hnone
    have hrb : resolveBackward s.history = none := by
      unfold resolveBackward
      rw [if_neg (by omega), hnone]
      rfl
    unfold dispatch runHandler
    dsimp only
    have hback : handleBack env ⟨.BACK, p⟩ { s with error := none } =
        handleClose ⟨.CLOSE, p⟩ { s with error := none } := by
      unfold handleBack
      dsimp only
      simp only [hf]
      rw [if_neg (by omega)]
      cases hpc : p.context with
      | none =>
          simp only [hrb]
          rfl
      | some u =>
          simp only [hrb]
          exact handleClose_updateContext ⟨.CLOSE, p⟩ u _ hpc
    rw [hback]
  · intro env p s flow prev hf hlen hprev hall
    have hrb : resolveBackward s.history = some prev := by
      unfold resolveBackward
      rw [if_neg (by omega), hprev]
      rfl
    obtain ⟨r, hr⟩ := findIndexById_ok_of_all_some s.history prev.id hall
    rw [(dispatch_nav_fields env ⟨.BACK, p⟩ s).1]
    unfold runHandler handleBack
    dsimp only
    simp only [hf]
    rw [if_neg (by omega)]
    cases hpc : p.context with
    | none =>
        simp only [hrb]
        unfold navigateBack
        rw [hr]
        dsimp only
        cases hl : historyLastId s.history with
        | error e => rfl
        | ok lastId => rw [currentNode_after_transition]
    | some u =>
        simp only [hrb]
        unfold navigateBack
        rw [hr]
        dsimp only
        cases hl : historyLastId s.history with
        | error e => rfl
        | ok lastId => rw [currentNode_after_transition]

/-- Witness for C7 at the §8 scenario state with history ["a"]: BACK is a
no-op. -/
theorem C7_back_witness :
    dispatch envD (some ⟨.BACK, {}⟩) abcStarted =
      { abcStarted with error := none } :=
  C7_back_noop_and_degrade.1 envD {} abcStarted (Or.inl (by decide))

theorem truthyStr_some (o : Option String) (t : String)
    (h : truthyStr o = some t) : t ≠ "" := by
  cases o with
  | none => simp [truthyStr] at h
  | some str =>
      by_cases hs : str = ""
      · simp [truthyStr, hs] at h
      · simp only [truthyStr, if_neg hs] at h
        injection h with h
        exact h ▸ hs

theorem validateNode_ok (flow : Flow) (tid : String) (tn : FlowNode)
    (hne : tid ≠ "") (hfind : nodesFind flow tid = some tn) :
    validateNode flow (some tid) = .ok tn := by
  simp [validateNode, truthyStr, hne, hfind]

theorem navigateToNodeReal_fields (n : FlowNode) (s : RunState) :
    (navigateToNodeReal n s).currentNode = some n ∧
    (navigateToNodeReal n s).history = s.history ++ [some n] ∧
    (navigateToNodeReal n s).flow = s.flow ∧
    (navigateToNodeReal n s).context = s.context ∧
    (navigateToNodeReal n s).isRunning = s.isRunning ∧
    (navigateToNodeReal n s).subflowStack = s.subflowStack := by
  unfold navigateToNodeReal
  dsimp only
  split <;> simp

theorem core_next_tail (env : Env) (rn : FlowNode) (fid : String)
    (a c : FlowCommand) (pid : Option String) (src tgt : String)
    (flow : Flow) (t : RunState) :
    core (handleTransition env rn fid a
      (emitWorkflowEvent c (emitEdgeTaken src tgt flow
        (emitNodeEnter rn fid pid t)))).1 = core t := by
  rw [core_handleTransition, core_emitWorkflowEvent, core_emitEdgeTaken,
    core_emitNodeEnter]

theorem core_back_tail (env : Env) (prev : FlowNode) (fid : String)
    (a : FlowCommand) (pid : Option String) (t : RunState) :
    core (handleTransition env prev fid a (emitNodeEnter prev fid pid t)).1 =
      core t := by
  rw [core_handleTransition, core_emitNodeEnter]

theorem findIndexById_min (h : List (Option FlowNode)) (id : String)
    (i : Nat) (hf : findIndexById h id = .ok (some i)) (j : Nat)
    (q : FlowNode) (hq : h.get? j = some (some q)) (hid : q.id = id) :
    i ≤ j := by
  induction h generalizing i j with
  | nil => simp [findIndexById] at hf
  | cons x rest ih =>
      cases x with
      | none => simp [findIndexById] at hf
      | some n =>
          by_cases hn : n.id = id
          · simp [findIndexById, hn] at hf
            omega
          · cases j with
            | zero =>
                simp at hq
                exact absurd (hq ▸ hid) hn
            | succ j' =>
                simp only [List.get?_cons_succ] at hq
                cases hr : findIndexById rest id with
                | error e => simp [findIndexById, hn, hr] at hf
                | ok r =>
                    cases r with
                    | none => simp [findIndexById, hn, hr] at hf
                    | some k =>
                        simp [findIndexById, hn, hr] at hf
                        have := ih k hr j' hq
                        omega

/-- C6: a successfully handled NEXT increases history length by exactly
one; a subsequent BACK truncates history to `take (i+1)` where `i` is the
first index bearing the resolved predecessor's id — an index no larger
than the predecessor's own position, so the result is a strict prefix of
the prior history and its length strictly decreases. -/
theorem C6_history_monotonicity :
    (∀ (env : Env) (p : FlowPayload) (s : RunState) (flow : Flow)
        (current tn : FlowNode) (tid : String),
        s.flow = some flow → s.currentNode = some current →
        truthyStr (orStrOpt p.nodeId
          (getNextNodeId current.id flow (mergeCtxOpt s.context p.context)))
          = some tid →
        nodesFind flow tid = some tn →
        (dispatch env (some ⟨.NEXT, p⟩) s).history.length =
          s.history.length + 1) ∧
    (∀ (env : Env) (p : FlowPayload) (s : RunState) (flow : Flow)
        (prev : FlowNode) (i : Nat),
        s.flow = some flow → 1 < s.history.length →
        s.history.get? (s.history.length - 2) = some (some prev) →
        findIndexById s.history prev.id = .ok (some i) →
        (dispatch env (some ⟨.BACK, p⟩) s).history =
          s.history.take (i + 1) ∧
        (∃ q, s.history.get? i = some (some q) ∧ q.id = prev.id) ∧
        i + 1 < s.history.length ∧
        (dispatch env (some ⟨.BACK, p⟩) s).history.length <
          s.history.length) := by
  constructor
  · intro env p s flow current tn tid hf hcur hsel hfind
    rw [(dispatch_nav_fields env ⟨.NEXT, p⟩ s).2.1]
    unfold runHandler handleNext
    dsimp only
    simp only [hf, hcur]
    cases hpc : p.context with
    | none =>
        simp only [hpc, mergeCtxOpt] at hsel
        simp only [hsel]
        rw [validateNode_ok flow tid tn (truthyStr_some _ _ hsel) hfind]
        dsimp only
        rw [(core_fields (core_next_tail env _ flow.id .NEXT .NEXT
          (some current.id) current.id _ flow _)).2.2.1]
        rw [(navigateToNodeReal_fields _ _).2.1]
        simp
    | some u =>
        simp only [hpc, mergeCtxOpt] at hsel
        dsimp only [updateContext]
        simp only [hsel]
        rw [validateNode_ok flow tid tn (truthyStr_some _ _ hsel) hfind]
        dsimp only
        rw [(core_fields (core_next_tail env _ flow.id .NEXT .NEXT
          (some current.id) current.id _ flow _)).2.2.1]
        rw [(navigateToNodeReal_fields _ _).2.1]
        simp
  · intro env p s flow prev i hf hlen hprev hfi
    obtain ⟨q, hq, hqid⟩ := findIndexById_found s.history prev.id i hfi
    have hile : i ≤ s.history.length - 2 :=
      findIndexById_min s.history prev.id i hfi _ prev hprev rfl
    have hrb : resolveBackward s.history = some prev := by
      unfold resolveBackward
      rw [if_neg (by omega), hprev]
      rfl
    have hhist : (dispatch env (some ⟨.BACK, p⟩) s).history =
        s.history.take (i + 1) := by
      rw [(dispatch_nav_fields env ⟨.BACK, p⟩ s).2.1]
      unfold runHandler handleBack
      dsimp only
      simp only [hf]
      rw [if_neg (by omega)]
      cases hpc : p.context with
      | none =>
          simp only [hrb]
          unfold navigateBack
          rw [hfi]
          dsimp only
          cases hl : historyLastId s.history with
          | error e => rfl
          | ok lastId =>
              rw [(core_fields (core_back_tail env prev flow.id .BACK
                (some lastId) _)).2.2.1]
      | some u =>
          simp only [hrb]
          unfold navigateBack
          rw [hfi]
          dsimp only
          cases hl : historyLastId s.history with
          | error e => rfl
          | ok lastId =>
              rw [(core_fields (core_back_tail env prev flow.id .BACK
                (some lastId) _)).2.2.1]
    refine ⟨hhist, ⟨q, hq, hqid⟩, by omega, ?_⟩
    rw [hhist]
    rw [List.length_take]
    omega

/-- Witness for C6: at the scenario state with history ["a", "c"], NEXT
is not applicable (no valid edge from "c"), so the witness exercises the
BACK half: one BACK from ["a", "c"] truncates to ["a"]. -/
theorem C6_history_witness :
    (dispatch envD (some ⟨.BACK, {}⟩) abcNexted).history =
      abcNexted.history.take 1 :=
  ((C6_history_monotonicity.2 envD {} abcNexted flowABC nodeA 0
    (by decide) (by decide) (by decide) (by decide))).1

/-- C10: a NEXT whose payload carries a (truthy) explicit nodeId selects
that id regardless of the edge-derived fallback (part 1 quantifies over
the fallback, so no edge or condition between the current node and the
target participates in the selection); the runner then transitions to the
forward-resolution of that node, with only node existence validated: a
missing node errors with NODE_NOT_FOUND (part 3), and on `flowGate`
(whose only edge condition is false under the context) plain NEXT stays
put while explicit NEXT reaches "b" (part 4). -/
theorem C10_explicit_target_bypasses_edges :
    (∀ (tid : String) (x : Option String), tid ≠ "" →
        truthyStr (orStrOpt (some tid) x) = some tid) ∧
    (∀ (env : Env) (p : FlowPayload) (s : RunState) (flow : Flow)
        (current tn : FlowNode) (tid : String),
        s.flow = some flow → s.currentNode = some current →
        p.nodeId = some tid → tid ≠ "" → p.context = none →
        nodesFind flow tid = some tn →
        (dispatch env (some ⟨.NEXT, p⟩) s).currentNode =
          some (resolveForward env s.context flow tn)) ∧
    (∀ (env : Env) (p : FlowPayload) (s : RunState) (flow : Flow)
        (current : FlowNode) (tid : String),
        s.flow = some flow → s.currentNode = some current →
        p.nodeId = some tid → tid ≠ "" → p.context = none →
        nodesFind flow tid = none →
        (dispatch env (some ⟨.NEXT, p⟩) s).currentNode = s.currentNode ∧
        (dispatch env (some ⟨.NEXT, p⟩) s).history = s.history ∧
        (dispatch env (some ⟨.NEXT, p⟩) s).error =
          some (flowError "node not found in flow" "NODE_NOT_FOUND")) ∧
    ((dispatch envD (some ⟨.NEXT, {}⟩) gateStarted).currentNode =
        some gateA ∧
     (dispatch envD (some ⟨.NEXT, { nodeId := some "b" }⟩)
        gateStarted).currentNode = some gateB) := by
  refine ⟨?_, ?_, ?_, by decide, by decide⟩
  · intro tid x hne
    simp [orStrOpt, truthyStr, hne]
  · intro env p s flow current tn tid hf hcur hnid hne hpc hfind
    have hsel : truthyStr (orStrOpt p.nodeId
        (getNextNodeId current.id flow s.context)) = some tid := by
      rw [hnid]; simp [orStrOpt, truthyStr, hne]
    rw [(dispatch_nav_fields env ⟨.NEXT, p⟩ s).1]
    unfold runHandler handleNext
    dsimp only
    simp only [hf, hcur, hpc]
    simp only [hsel]
    rw [validateNode_ok flow tid tn hne hfind]
    dsimp only
    rw [(core_fields (core_next_tail env _ flow.id .NEXT .NEXT
      (some current.id) current.id _ flow _)).1]
    rw [(navigateToNodeReal_fields _ _).1]
  · intro env p s flow current tid hf hcur hnid hne hpc hfind
    have hsel : truthyStr (orStrOpt p.nodeId
        (getNextNodeId current.id flow s.context)) = some tid := by
      rw [hnid]; simp [orStrOpt, truthyStr, hne]
    have hval : validateNode flow (some tid) =
        .error (flowError "node not found in flow" "NODE_NOT_FOUND") := by
      simp [validateNode, truthyStr, hne, hfind]
    unfold dispatch runHandler handleNext
    dsimp only
    simp only [hf, hcur, hpc]
    simp only [hsel, hval]
    refine ⟨(handleErrorCore_fields _ _).1, (handleErrorCore_fields _ _).2.1,
      ?_⟩
    exact (handleErrorCore_fields _ _).2.2.2.2.2.2.2.1

/-- Witness for C10: on the gated flow, explicit NEXT to "b" lands on the
forward-resolution of "b" although the only a→b edge condition is
false. -/
theorem C10_explicit_target_witness :
    (dispatch envD (some ⟨.NEXT, { nodeId := some "b" }⟩)
      gateStarted).currentNode =
      some (resolveForward envD gateStarted.context flowGate gateB) :=
  C10_explicit_target_bypasses_edges.2.1 envD { nodeId := some "b" }
    gateStarted flowGate gateA gateB "b" (by decide) (by decide) rfl
    (by decide) rfl (by decide)

theorem core_emitSubflowStarted (sub : Flow) (s : RunState) :
    core (emitSubflowStarted sub s) = core s := rfl

theorem core_emitSubflowClosed (sid : Option String) (s : RunState) :
    core (emitSubflowClosed sid s) = core s := rfl

theorem popSubflow_concat (u : Option Ctx) (s : RunState)
    (st : List SubflowStackEntry) (e : SubflowStackEntry)
    (h : s.subflowStack = st ++ [e]) :
    popSubflow u s =
      ({ s with subflowStack := st, flow := some e.flow,
                context := mergeCtxOpt e.context u }, some e) := by
  unfold popSubflow
  rw [h, List.getLast?_concat]
  dsimp only
  rw [List.dropLast_concat]

/-- The state component of a START_SUBFLOW run: push the parent entry with
return target = the current node id (no explicit or declared return
target), re-initialize to the subflow with the merged context, and enter
its start node.  Emits and modal work do not touch the navigation core. -/
theorem startSubflow_core (env : Env) (p : FlowPayload) (s : RunState)
    (sub pf : Flow) (cur st : FlowNode)
    (hsubp : p.subflow = some sub) (hret : p.returnTo = none)
    (hstartId : p.startNodeId = none)
    (hf : s.flow = some pf) (hcur : s.currentNode = some cur)
    (hglob : ctxFind sub.globals "returnTo" = none) (hne : cur.id ≠ "")
    (hstart : nodesFind sub sub.start = some st) :
    core (runHandler env ⟨.START_SUBFLOW, p⟩ s).1 =
      core (addToHistory st (setCurrentNode st (initializeSubflowState sub
        (mergeCtxOpt s.context p.context)
        (pushSubflow pf cur.id s.context s)))) := by
  unfold runHandler handleStartSubflow
  dsimp only
  simp only [hsubp, hret, hstartId, hf, hcur, hglob, Option.map_some']
  have htr : orStr none (orStr none (orStr (some cur.id) pf.start)) =
      cur.id := by
    simp [orStr, hne]
  rw [htr]
  have hsid : orStr (none : Option String) sub.start = sub.start := rfl
  rw [hsid, hstart]
  dsimp only
  split
  · rw [core_awaitOpen_open, core_emitNodeEnter, core_emitSubflowStarted]
  · rw [core_emitNodeEnter, core_emitSubflowStarted]

/-- C4 counterexample: the claim fails at the concrete round trip
`rtRun1 → rtRun2 → rtRun3`.  The parent saved context is a=1, the
subflow's final context is a=1,b=2, and CLOSE_SUBFLOW with an empty
payload restores the current node (x) but a context equal to the saved
parent context alone: the subflow's delta b=2 is discarded, so the
restored context is NOT the saved parent context merged with the
subflow's final context. -/
theorem C4_subflow_context_counterexample :
    rtRun1.context = [("a", .vNum (.int 1))] ∧
    rtRun2.context = [("a", .vNum (.int 1)), ("b", .vNum (.int 2))] ∧
    rtRun3.currentNode = some xP ∧
    rtRun3.context ≠ mergeCtx [("a", .vNum (.int 1))] rtRun2.context ∧
    ctxFind rtRun3.context "b" = none ∧
    ctxFind (mergeCtx [("a", .vNum (.int 1))] rtRun2.context) "b" =
      some (.vNum (.int 2)) := by
  decide

/-- C4 amended: START_SUBFLOW immediately followed by CLOSE_SUBFLOW (no
intervening command) restores the current node to the parent's pre-subflow
node (the recorded return id being that node's id, which still exists in
the parent flow), restores the parent flow and subflow stack, and restores
the execution context to the saved parent context merged with the
CLOSE_SUBFLOW payload's context updates — the subflow's own accumulated
context is discarded unless passed in that payload. -/
theorem C4_subflow_roundtrip_amended (env : Env) (s : RunState)
    (pf sub : Flow) (cur st : FlowNode) (startCtx closeCtx : Option Ctx)
    (hf : s.flow = some pf) (hcur : s.currentNode = some cur)
    (hback : nodesFind pf cur.id = some cur) (hne : cur.id ≠ "")
    (hglob : ctxFind sub.globals "returnTo" = none)
    (hstart : nodesFind sub sub.start = some st) :
    (dispatch env (some ⟨.CLOSE_SUBFLOW, { context := closeCtx }⟩)
      (dispatch env (some ⟨.START_SUBFLOW,
        { subflow := some sub, context := startCtx }⟩) s)).currentNode =
      some cur ∧
    (dispatch env (some ⟨.CLOSE_SUBFLOW, { context := closeCtx }⟩)
      (dispatch env (some ⟨.START_SUBFLOW,
        { subflow := some sub, context := startCtx }⟩) s)).context =
      mergeCtxOpt s.context closeCtx ∧
    (dispatch env (some ⟨.CLOSE_SUBFLOW, { context := closeCtx }⟩)
      (dispatch env (some ⟨.START_SUBFLOW,
        { subflow := some sub, context := startCtx }⟩) s)).flow = some pf ∧
    (dispatch env (some ⟨.CLOSE_SUBFLOW, { context := closeCtx }⟩)
      (dispatch env (some ⟨.START_SUBFLOW,
        { subflow := some sub, context := startCtx }⟩) s)).subflowStack =
      s.subflowStack := by
  have hcore1 := core_fields (startSubflow_core env
    { subflow := some sub, context := startCtx } { s with error := none }
    sub pf cur st rfl rfl rfl hf hcur hglob hne hstart)
  have h2stack : (dispatch env (some ⟨.START_SUBFLOW,
      { subflow := some sub, context := startCtx }⟩) s).subflowStack =
      s.subflowStack ++ [⟨pf, cur.id, s.context⟩] := by
    rw [(dispatch_nav_fields env _ s).2.2.2.2.1, hcore1.2.2.2.2.2.2.1]
    rfl
  set s2 := dispatch env (some ⟨.START_SUBFLOW,
    { subflow := some sub, context := startCtx }⟩) s with hs2
  have hpop := popSubflow_concat closeCtx { s2 with error := none }
    s.subflowStack ⟨pf, cur.id, s.context⟩ h2stack
  have hlen : ¬ (({ s2 with error := none } : RunState).subflowStack.length
      = 0) := by
    have : ({ s2 with error := none } : RunState).subflowStack =
        s.subflowStack ++ [⟨pf, cur.id, s.context⟩] := h2stack
    rw [this]
    simp
  have hrun2 : core (runHandler env ⟨.CLOSE_SUBFLOW,
      { context := closeCtx }⟩ { s2 with error := none }).1 =
      core (addToHistory cur (setCurrentNode cur
        { { s2 with error := none } with
            subflowStack := s.subflowStack, flow := some pf,
            context := mergeCtxOpt s.context closeCtx })) := by
    unfold runHandler handleCloseSubflow
    dsimp only
    rw [if_neg hlen]
    rw [hpop]
    dsimp only
    have htid : truthyStr (some cur.id) = some cur.id := by
      simp [truthyStr, hne]
    rw [htid]
    dsimp only
    rw [hback]
    dsimp only
    rw [core_scheduleClose, core_emitSubflowClosed, core_emitNodeEnter]
  have hfields := core_fields hrun2
  have hd := dispatch_nav_fields env ⟨.CLOSE_SUBFLOW,
    { context := closeCtx }⟩ s2
  refine ⟨?_, ?_, ?_, ?_⟩
  · rw [hd.1, hfields.1]
    rfl
  · rw [hd.2.2.2.1, hfields.2.2.2.2.1]
    rfl
  · rw [hd.2.2.1, hfields.2.2.2.1]
    rfl
  · rw [hd.2.2.2.2.1, hfields.2.2.2.2.2.2.1]
    rfl

/-- Witness for C4's amended round trip at the concrete parent/subflow
pair with a close payload c=3. -/
theorem C4_subflow_roundtrip_witness :
    (dispatch envD (some ⟨.CLOSE_SUBFLOW,
      { context := some [("c", .vNum (.int 3))] }⟩)
      (dispatch envD (some ⟨.START_SUBFLOW,
        { subflow := some flowS,
          context := some [("b", .vNum (.int 2))] }⟩) rtRun1)).context =
      mergeCtxOpt rtRun1.context (some [("c", .vNum (.int 3))]) :=
  (C4_subflow_roundtrip_amended envD rtRun1 flowP flowS xP xS
    (some [("b", .vNum (.int 2))]) (some [("c", .vNum (.int 3))])
    (by decide) (by decide) (by decide) (by decide) (by decide)
    (by decide)).2.1

/-- C9 counterexample: inside the subflow `flowSkip` (stack non-empty),
NEXT_SUBFLOW and NEXT on the same empty payload produce different state
transitions: NEXT_SUBFLOW lands on the non-presentable "s2" (no
forward-skip resolution), while NEXT forward-resolves to "s3". -/
theorem C9_next_subflow_counterexample :
    skipRun.subflowStack.length = 1 ∧
    (dispatch envD (some ⟨.NEXT_SUBFLOW, {}⟩) skipRun).currentNode =
      some subN2 ∧
    (dispatch envD (some ⟨.NEXT, {}⟩) skipRun).currentNode = some subN3 ∧
    (dispatch envD (some ⟨.NEXT_SUBFLOW, {}⟩) skipRun).currentNode ≠
      (dispatch envD (some ⟨.NEXT, {}⟩) skipRun).currentNode := by
  decide

/-- The navigation core of a NEXT_SUBFLOW success: context merge, target
selection and `navigateToNode` — with no `validateNode` and no
`resolveForward`. -/
theorem nextSubflow_core (env : Env) (p : FlowPayload) (s : RunState)
    (flow : Flow) (current tn : FlowNode) (tid : String)
    (hz : ¬ s.subflowStack.length = 0)
    (hf : s.flow = some flow) (hcur : s.currentNode = some current)
    (hsel : truthyStr (orStrOpt p.nodeId (getNextNodeId current.id flow
      (mergeCtxOpt s.context p.context))) = some tid)
    (hfind : nodesFind flow tid = some tn) :
    core (runHandler env ⟨.NEXT_SUBFLOW, p⟩ s).1 =
      core (navigateToNodeReal tn (match p.context with
        | some u => updateContext u s
        | none => s)) := by
  unfold runHandler handleNextSubflow
  dsimp only
  rw [if_neg hz]
  simp only [hf, hcur]
  cases hpc : p.context with
  | none =>
      simp only [hpc, mergeCtxOpt] at hsel
      simp only [hsel, hfind]
      split
      · rw [core_awaitOpen_open, core_scheduleClose, core_emitWorkflowEvent,
          core_emitNodeEnter]
      · dsimp only
        rw [core_scheduleClose, core_emitWorkflowEvent, core_emitNodeEnter]
  | some u =>
      simp only [hpc, mergeCtxOpt] at hsel
      dsimp only [updateContext]
      simp only [hsel, hfind]
      split
      · rw [core_awaitOpen_open, core_scheduleClose, core_emitWorkflowEvent,
          core_emitNodeEnter]
      · dsimp only
        rw [core_scheduleClose, core_emitWorkflowEvent, core_emitNodeEnter]

/-- C9 amended: NEXT_SUBFLOW is a no-op (up to the error-slot clear) when
the subflow stack is empty; when the stack is non-empty it performs NEXT's
context merge, explicit-target-or-first-valid-edge selection and
history/state update through the same `navigateToNode`, but navigates
directly to the selected target node — without NEXT's forward-skip
resolution and without validating the target (compare the counterexample,
where the two commands land on different nodes). -/
theorem C9_next_subflow_amended :
    (∀ (env : Env) (p : FlowPayload) (s : RunState),
        s.subflowStack.length = 0 →
        dispatch env (some ⟨.NEXT_SUBFLOW, p⟩) s =
          { s with error := none }) ∧
    (∀ (env : Env) (p : FlowPayload) (s : RunState) (flow : Flow)
        (current tn : FlowNode) (tid : String),
        ¬ s.subflowStack.length = 0 →
        s.flow = some flow → s.currentNode = some current →
        truthyStr (orStrOpt p.nodeId (getNextNodeId current.id flow
          (mergeCtxOpt s.context p.context))) = some tid →
        nodesFind flow tid = some tn →
        (dispatch env (some ⟨.NEXT_SUBFLOW, p⟩) s).currentNode = some tn ∧
        (dispatch env (some ⟨.NEXT_SUBFLOW, p⟩) s).history =
          s.history ++ [some tn] ∧
        (dispatch env (some ⟨.NEXT_SUBFLOW, p⟩) s).context =
          mergeCtxOpt s.context p.context) := by
  constructor
  · intro env p s hz
    unfold dispatch runHandler handleNextSubflow
    dsimp only
    simp [hz]
  · intro env p s flow current tn tid hz hf hcur hsel hfind
    have hfields := core_fields (nextSubflow_core env p
      { s with error := none } flow current tn tid hz hf hcur hsel hfind)
    have hd := dispatch_nav_fields env ⟨.NEXT_SUBFLOW, p⟩ s
    have hnav := navigateToNodeReal_fields tn (match p.context with
      | some u => updateContext u ({ s with error := none } : RunState)
      | none => { s with error := none })
    refine ⟨?_, ?_, ?_⟩
    · rw [hd.1, hfields.1, hnav.1]
    · rw [hd.2.1, hfields.2.2.1, hnav.2.1]
      cases hpc : p.context with
      | none => rfl
      | some u => simp [updateContext]
    · rw [hd.2.2.2.1, hfields.2.2.2.2.1, hnav.2.2.2.1]
      cases hpc : p.context with
      | none => rfl
      | some u => simp [updateContext, mergeCtxOpt]

/-- Witness for C9's amended statement at the concrete in-subflow state:
NEXT_SUBFLOW navigates directly to the selected (non-presentable) target
"s2". -/
theorem C9_next_subflow_witness :
    (dispatch envD (some ⟨.NEXT_SUBFLOW, {}⟩) skipRun).currentNode =
      some subN2 :=
  (C9_next_subflow_amended.2 envD {} skipRun flowSkip subN1 subN2 "s2"
    (by decide) (by decide) (by decide) (by decide) (by decide)).1

-- ========== INVARIANT INFRASTRUCTURE FOR C5 ==========

theorem invId_of_eq3 (a b : RunState) (h1 : a.currentNode = b.currentNode)
    (h2 : a.history = b.history) (h3 : a.isRunning = b.isRunning)
    (hb : InvId b) : InvId a := by
  intro hrun
  unfold lastEntryMatchesCurrentId
  rw [h1, h2]
  exact hb (h3 ▸ hrun)

theorem invId_of_core {a b : RunState} (h : core a = core b)
    (hb : InvId b) : InvId a := by
  obtain ⟨h1, _, h3, _, _, h6, _, _⟩ := core_fields h
  exact invId_of_eq3 a b h1 h3 h6 hb

theorem invId_errClear (s : RunState) (h : InvId s) :
    InvId { s with error := none } :=
  invId_of_eq3 _ s rfl rfl rfl h

theorem invId_handleErrorCore (e : ErrObj) (t : RunState) :
    InvId (handleErrorCore e t) := by
  intro hrun
  rw [(handleErrorCore_fields e t).2.2.2.2.2.2.1] at hrun
  cases hrun

theorem invId_not_running (t : RunState) (h : t.isRunning = false) :
    InvId t := by
  intro hrun
  rw [h] at hrun
  cases hrun

theorem invId_append (t : RunState) (n : FlowNode)
    (h1 : t.currentNode = some n)
    (h2 : ∃ h0, t.history = h0 ++ [some n]) : InvId t := by
  intro _
  unfold lastEntryMatchesCurrentId
  obtain ⟨h0, hh⟩ := h2
  rw [h1, hh, List.getLast?_concat]
  rfl

theorem invId_dispatch_of_ok (env : Env) (ev : FlowEvent) (s : RunState)
    (hok : ∀ t, runHandler env ev { s with error := none } = (t, .ok ()) →
      InvId t) : InvId (dispatch env (some ev) s) := by
  unfold dispatch
  dsimp only
  cases hx : runHandler env ev { s with error := none } with
  | mk t r =>
      cases r with
      | ok a => cases a; exact hok t hx
      | error e => exact invId_handleErrorCore e t

theorem popSubflow_keeps (u : Option Ctx) (s : RunState) :
    (popSubflow u s).1.currentNode = s.currentNode ∧
    (popSubflow u s).1.history = s.history ∧
    (popSubflow u s).1.isRunning = s.isRunning := by
  unfold popSubflow
  cases s.subflowStack.getLast? <;> simp

theorem handleClose_state (ev : FlowEvent) (s : RunState) :
    (handleClose ev s).1.isRunning = false ∧
    (handleClose ev s).2 = .ok () := by
  unfold handleClose
  cases ev.payload.context <;> exact ⟨rfl, rfl⟩

theorem findIndexById_ne_none (h : List (Option FlowNode)) (id : String)
    (j : Nat) (q : FlowNode) (hq : h.get? j = some (some q))
    (hid : q.id = id) : findIndexById h id ≠ .ok none := by
  induction h generalizing j with
  | nil => simp at hq
  | cons x rest ih =>
      cases x with
      | none => simp [findIndexById]
      | some n =>
          by_cases hn : n.id = id
          · simp [findIndexById, hn]
          · cases j with
            | zero =>
                simp at hq
                exact absurd (hq ▸ hid) hn
            | succ j' =>
                simp only [List.get?_cons_succ] at hq
                cases hr : findIndexById rest id with
                | error e => simp [findIndexById, hn, hr]
                | ok r =>
                    cases r with
                    | none => exact absurd hr (ih j' hq)
                    | some k => simp [findIndexById, hn, hr]

theorem resolveBackward_some (h : List (Option FlowNode)) (prev : FlowNode)
    (hr : resolveBackward h = some prev) :
    h.get? (h.length - 2) = some (some prev) := by
  unfold resolveBackward at hr
  by_cases hl : h.length ≤ 1
  · simp [hl] at hr
  · rw [if_neg hl] at hr
    cases hg : h.get? (h.length - 2) with
    | none => rw [hg] at hr; simp at hr
    | some o =>
        rw [hg] at hr
        cases o with
        | none => simp at hr
        | some q => simp at hr; rw [hr]

theorem invId_start_shape (env : Env) (rn : FlowNode) (fid : String)
    (c : FlowCommand) (pid : Option String) (X t : RunState)
    (h : handleTransition env rn fid c (emitWorkflowEvent c
      (emitNodeEnter rn fid pid
        (if rn.type = some "task" then
          setLastTaskState rn (addToHistory rn (setCurrentNode rn X))
        else addToHistory rn (setCurrentNode rn X)))) = (t, .ok ())) :
    InvId t := by
  have hx := congrArg Prod.fst h
  dsimp only at hx
  rw [← hx]
  refine invId_of_core (b := if rn.type = some "task" then
      setLastTaskState rn (addToHistory rn (setCurrentNode rn X))
    else addToHistory rn (setCurrentNode rn X)) ?_ ?_
  · rw [core_handleTransition, core_emitWorkflowEvent, core_emitNodeEnter]
  · exact invId_append _ rn (by split <;> rfl) ⟨X.history, by split <;> rfl⟩

theorem invId_nav_shape (env : Env) (rn : FlowNode) (fid : String)
    (a c : FlowCommand) (pid : Option String) (src tgt : String)
    (flow : Flow) (X t : RunState)
    (h : handleTransition env rn fid a (emitWorkflowEvent c
      (emitEdgeTaken src tgt flow
        (emitNodeEnter rn fid pid (navigateToNodeReal rn X)))) =
      (t, .ok ())) : InvId t := by
  have hx := congrArg Prod.fst h
  dsimp only at hx
  rw [← hx]
  refine invId_of_core (b := navigateToNodeReal rn X) ?_ ?_
  · exact core_next_tail env rn fid a c pid src tgt flow
      (navigateToNodeReal rn X)
  · exact invId_append _ rn (navigateToNodeReal_fields rn X).1
      ⟨X.history, (navigateToNodeReal_fields rn X).2.1⟩

theorem invId_open_shape (env : Env) (rn : FlowNode) (fid ty : String)
    (pid : Option String) (S t : RunState) (hS : InvId S)
    (h : (if shouldOpenModal env rn = true then
        awaitOpen (openModalRunner env rn fid ty pid S)
      else (S, .ok ())) = (t, .ok ())) : InvId t := by
  by_cases hb : shouldOpenModal env rn = true
  · rw [if_pos hb] at h
    have hx := congrArg Prod.fst h
    dsimp only at hx
    rw [← hx]
    exact invId_of_core (core_awaitOpen_open env rn fid ty pid S) hS
  · rw [if_neg hb] at h
    have hx : S = t := congrArg Prod.fst h
    exact hx ▸ hS

theorem invId_after_start (env : Env) (ev : FlowEvent) (s0 t : RunState)
    (h : handleStart env ev s0 = (t, .ok ())) : InvId t := by
  unfold handleStart at h
  cases hp : ev.payload.flow with
  | none => rw [hp] at h; simp [Prod.ext_iff] at h
  | some flow =>
      rw [hp] at h
      dsimp only at h
      cases hv : validateNode flow
          (some (orStr ev.payload.startNodeId flow.start)) with
      | error e => rw [hv] at h; simp [Prod.ext_iff] at h
      | ok tn =>
          rw [hv] at h
          dsimp only at h
          exact invId_start_shape env _ flow.id .START none _ t h

theorem invId_after_next (env : Env) (ev : FlowEvent) (s0 t : RunState)
    (hs0 : InvId s0) (h : handleNext env ev s0 = (t, .ok ())) : InvId t := by
  unfold handleNext at h
  cases hf : s0.flow with
  | none =>
      rw [hf] at h
      dsimp only at h
      have hx : s0 = t := congrArg Prod.fst h
      exact hx ▸ hs0
  | some flow =>
      rw [hf] at h
      cases hc : s0.currentNode with
      | none =>
          rw [hc] at h
          dsimp only at h
          have hx : s0 = t := congrArg Prod.fst h
          exact hx ▸ hs0
      | some current =>
          rw [hc] at h
          dsimp only at h
          cases hpc : ev.payload.context with
          | none =>
              rw [hpc] at h
              dsimp only at h
              cases hsel : truthyStr (orStrOpt ev.payload.nodeId
                  (getNextNodeId current.id flow s0.context)) with
              | none =>
                  rw [hsel] at h
                  have hx : s0 = t := congrArg Prod.fst h
                  exact hx ▸ hs0
              | some tid =>
                  rw [hsel] at h
                  dsimp only at h
                  cases hv : validateNode flow (some tid) with
                  | error e => rw [hv] at h; simp [Prod.ext_iff] at h
                  | ok tn =>
                      rw [hv] at h
                      dsimp only at h
                      exact invId_nav_shape env _ flow.id .NEXT .NEXT
                        (some current.id) current.id _ flow _ t h
          | some u =>
              rw [hpc] at h
              dsimp only at h
              cases hsel : truthyStr (orStrOpt ev.payload.nodeId
                  (getNextNodeId current.id flow
                    (updateContext u s0).context)) with
              | none =>
                  rw [hsel] at h
                  have hx : updateContext u s0 = t := congrArg Prod.fst h
                  refine hx ▸ invId_of_eq3 _ s0 ?_ ?_ ?_ hs0 <;>
                    simp [updateContext]
              | some tid =>
                  rw [hsel] at h
                  dsimp only at h
                  cases hv : validateNode flow (some tid) with
                  | error e => rw [hv] at h; simp [Prod.ext_iff] at h
                  | ok tn =>
                      rw [hv] at h
                      dsimp only at h
                      exact invId_nav_shape env _ flow.id .NEXT .NEXT
                        (some current.id) current.id _ flow _ t h

theorem invId_after_jumpTo (env : Env) (ev : FlowEvent) (s0 t : RunState)
    (hs0 : InvId s0) (h : handleJumpTo env ev s0 = (t, .ok ())) :
    InvId t := by
  unfold handleJumpTo at h
  cases htid : truthyStr ev.payload.targetNodeId with
  | none => rw [htid] at h; simp [Prod.ext_iff] at h
  | some targetNodeId =>
      rw [htid] at h
      dsimp only at h
      cases hf : s0.flow with
      | none =>
          rw [hf] at h
          dsimp only at h
          have hx : s0 = t := congrArg Prod.fst h
          exact hx ▸ hs0
      | some flow =>
          rw [hf] at h
          cases hc : s0.currentNode with
          | none =>
              rw [hc] at h
              dsimp only at h
              have hx : s0 = t := congrArg Prod.fst h
              exact hx ▸ hs0
          | some current =>
              rw [hc] at h
              dsimp only at h
              cases hpc : ev.payload.context with
              | none =>
                  rw [hpc] at h
                  dsimp only at h
                  cases hv : validateNode flow (some targetNodeId) with
                  | error e => rw [hv] at h; simp [Prod.ext_iff] at h
                  | ok tn =>
                      rw [hv] at h
                      dsimp only at h
                      refine invId_open_shape env _ flow.id "main" none _ t
                        ?_ h
                      refine invId_of_core
                        (b := navigateToNodeReal
                          (resolveForward env s0.context flow tn) s0) ?_ ?_
                      · rw [core_scheduleClose, core_emitNodeEnter]
                      · exact invId_append _ _
                          (navigateToNodeReal_fields _ _).1
                          ⟨_, (navigateToNodeReal_fields _ _).2.1⟩
              | some u =>
                  rw [hpc] at h
                  dsimp only at h
                  cases hv : validateNode flow (some targetNodeId) with
                  | error e => rw [hv] at h; simp [Prod.ext_iff] at h
                  | ok tn =>
                      rw [hv] at h
                      dsimp only at h
                      refine invId_open_shape env _ flow.id "main" none _ t
                        ?_ h
                      refine invId_of_core
                        (b := navigateToNodeReal
                          (resolveForward env (updateContext u s0).context
                            flow tn) (updateContext u s0)) ?_ ?_
                      · rw [core_scheduleClose, core_emitNodeEnter]
                      · exact invId_append _ _
                          (navigateToNodeReal_fields _ _).1
                          ⟨_, (navigateToNodeReal_fields _ _).2.1⟩

theorem invId_navBack_state (S : RunState)
    (history : List (Option FlowNode)) (prev : FlowNode) (i : Nat)
    (q : FlowNode) (hq : history.get? i = some (some q))
    (hid : q.id = prev.id) :
    InvId { S with history := history.take (i + 1),
                   currentNode := some prev } := by
  intro _
  unfold lastEntryMatchesCurrentId
  dsimp only
  rw [take_succ_getLast history i (some q) hq]
  simp [hid]

theorem invId_back_shape (env : Env) (prev : FlowNode) (fid : String)
    (a : FlowCommand) (pid : Option String) (S : RunState)
    (history : List (Option FlowNode)) (i : Nat) (q : FlowNode)
    (hq : history.get? i = some (some q)) (hid : q.id = prev.id)
    (t : RunState)
    (h : handleTransition env prev fid a (emitNodeEnter prev fid pid
      { S with history := history.take (i + 1),
               currentNode := some prev }) = (t, .ok ())) : InvId t := by
  have hx := congrArg Prod.fst h
  dsimp only at hx
  rw [← hx]
  exact invId_of_core (core_back_tail env prev fid a pid _)
    (invId_navBack_state S history prev i q hq hid)

theorem invId_after_back (env : Env) (ev : FlowEvent) (s0 t : RunState)
    (hs0 : InvId s0) (h : handleBack env ev s0 = (t, .ok ())) : InvId t := by
  unfold handleBack at h
  cases hf : s0.flow with
  | none =>
      rw [hf] at h
      dsimp only at h
      have hx : s0 = t := congrArg Prod.fst h
      exact hx ▸ hs0
  | some flow =>
      rw [hf] at h
      dsimp only at h
      by_cases hlen : s0.history.length ≤ 1
      · rw [if_pos hlen] at h
        have hx : s0 = t := congrArg Prod.fst h
        exact hx ▸ hs0
      · rw [if_neg hlen] at h
        cases hpc : ev.payload.context with
        | none =>
            rw [hpc] at h
            dsimp only at h
            cases hrb : resolveBackward s0.history with
            | none =>
                rw [hrb] at h
                have hx : (handleClose ev s0).1 = t := congrArg Prod.fst h
                exact hx ▸ invId_not_running _ (handleClose_state ev s0).1
            | some prev =>
                rw [hrb] at h
                dsimp only at h
                unfold navigateBack at h
                cases hfi : findIndexById s0.history prev.id with
                | error e => rw [hfi] at h; simp [Prod.ext_iff] at h
                | ok r =>
                    rw [hfi] at h
                    dsimp only at h
                    cases r with
                    | none =>
                        exact absurd hfi (findIndexById_ne_none _ _ _ prev
                          (resolveBackward_some _ _ hrb) rfl)
                    | some i =>
                        obtain ⟨q, hq, hqid⟩ :=
                          findIndexById_found _ _ i hfi
                        cases hl : historyLastId s0.history with
                        | error e => rw [hl] at h; simp [Prod.ext_iff] at h
                        | ok lastId =>
                            rw [hl] at h
                            exact invId_back_shape env prev flow.id .BACK
                              (some lastId) s0 s0.history i q hq hqid t h
        | some u =>
            rw [hpc] at h
            dsimp only at h
            cases hrb : resolveBackward s0.history with
            | none =>
                rw [hrb] at h
                have hx : (handleClose ev (updateContext u s0)).1 = t :=
                  congrArg Prod.fst h
                exact hx ▸ invId_not_running _
                  (handleClose_state ev (updateContext u s0)).1
            | some prev =>
                rw [hrb] at h
                dsimp only at h
                unfold navigateBack at h
                cases hfi : findIndexById s0.history prev.id with
                | error e => rw [hfi] at h; simp [Prod.ext_iff] at h
                | ok r =>
                    rw [hfi] at h
                    dsimp only at h
                    cases r with
                    | none =>
                        exact absurd hfi (findIndexById_ne_none _ _ _ prev
                          (resolveBackward_some _ _ hrb) rfl)
                    | some i =>
                        obtain ⟨q, hq, hqid⟩ :=
                          findIndexById_found _ _ i hfi
                        cases hl : historyLastId s0.history with
                        | error e => rw [hl] at h; simp [Prod.ext_iff] at h
                        | ok lastId =>
                            rw [hl] at h
                            exact invId_back_shape env prev flow.id .BACK
                              (some lastId) (updateContext u s0) s0.history
                              i q hq hqid t h

theorem invId_backSubflow_tail (env : Env) (prev : FlowNode) (fid : String)
    (c : FlowCommand) (pid pid2 : Option String) (S : RunState)
    (history : List (Option FlowNode)) (i : Nat) (q : FlowNode)
    (hq : history.get? i = some (some q)) (hid : q.id = prev.id)
    (t : RunState)
    (h : (if shouldOpenModal env prev = true then
        awaitOpen (openModalRunner env prev fid "subflow" pid2
          (scheduleCloseModals (emitWorkflowEvent c (emitNodeEnter prev fid
            pid { S with history := history.take (i + 1),
                         currentNode := some prev }))))
      else (scheduleCloseModals (emitWorkflowEvent c (emitNodeEnter prev fid
            pid { S with history := history.take (i + 1),
                         currentNode := some prev })), .ok ())) =
      (t, .ok ())) : InvId t := by
  refine invId_open_shape env prev fid "subflow" pid2 _ t ?_ h
  refine invId_of_core ?_ (invId_navBack_state S history prev i q hq hid)
  rw [core_scheduleClose, core_emitWorkflowEvent, core_emitNodeEnter]

theorem invId_after_backSubflow (env : Env) (ev : FlowEvent)
    (s0 t : RunState) (hs0 : InvId s0)
    (h : handleBackSubflow env ev s0 = (t, .ok ())) : InvId t := by
  unfold handleBackSubflow at h
  by_cases hz : s0.subflowStack.length = 0
  · rw [if_pos hz] at h
    have hx : s0 = t := congrArg Prod.fst h
    exact hx ▸ hs0
  · rw [if_neg hz] at h
    dsimp only at h
    cases hf : s0.flow with
    | none =>
        rw [hf] at h
        dsimp only at h
        have hx : s0 = t := congrArg Prod.fst h
        exact hx ▸ hs0
    | some flow =>
        rw [hf] at h
        dsimp only at h
        by_cases hlen : s0.history.length ≤ 1
        · rw [if_pos hlen] at h
          have hx : s0 = t := congrArg Prod.fst h
          exact hx ▸ hs0
        · rw [if_neg hlen] at h
          cases hpc : ev.payload.context with
          | none =>
              rw [hpc] at h
              dsimp only at h
              cases hrb : resolveBackward s0.history with
              | none =>
                  rw [hrb] at h
                  have hx : s0 = t := congrArg Prod.fst h
                  exact hx ▸ hs0
              | some prev =>
                  rw [hrb] at h
                  dsimp only at h
                  unfold navigateBack at h
                  cases hfi : findIndexById s0.history prev.id with
                  | error e => rw [hfi] at h; simp [Prod.ext_iff] at h
                  | ok r =>
                      rw [hfi] at h
                      dsimp only at h
                      cases r with
                      | none =>
                          exact absurd hfi (findIndexById_ne_none _ _ _
                            prev (resolveBackward_some _ _ hrb) rfl)
                      | some i =>
                          obtain ⟨q, hq, hqid⟩ :=
                            findIndexById_found _ _ i hfi
                          cases hl : historyLastId s0.history with
                          | error e =>
                              rw [hl] at h; simp [Prod.ext_iff] at h
                          | ok lastId =>
                              rw [hl] at h
                              dsimp only at h
                              exact invId_backSubflow_tail env prev flow.id
                                .BACK_SUBFLOW (some lastId) _ s0 s0.history
                                i q hq hqid t h
          | some u =>
              rw [hpc] at h
              dsimp only at h
              cases hrb : resolveBackward s0.history with
              | none =>
                  rw [hrb] at h
                  have hx : updateContext u s0 = t := congrArg Prod.fst h
                  refine hx ▸ invId_of_eq3 _ s0 ?_ ?_ ?_ hs0 <;>
                    simp [updateContext]
              | some prev =>
                  rw [hrb] at h
                  dsimp only at h
                  unfold navigateBack at h
                  cases hfi : findIndexById s0.history prev.id with
                  | error e => rw [hfi] at h; simp [Prod.ext_iff] at h
                  | ok r =>
                      rw [hfi] at h
                      dsimp only at h
                      cases r with
                      | none =>
                          exact absurd hfi (findIndexById_ne_none _ _ _
                            prev (resolveBackward_some _ _ hrb) rfl)
                      | some i =>
                          obtain ⟨q, hq, hqid⟩ :=
                            findIndexById_found _ _ i hfi
                          cases hl : historyLastId s0.history with
                          | error e =>
                              rw [hl] at h; simp [Prod.ext_iff] at h
                          | ok lastId =>
                              rw [hl] at h
                              dsimp only at h
                              exact invId_backSubflow_tail env prev flow.id
                                .BACK_SUBFLOW (some lastId) _
                                (updateContext u s0) s0.history i q hq hqid
                                t h

theorem invId_after_startSubflow (env : Env) (ev : FlowEvent)
    (s0 t : RunState)
    (h : handleStartSubflow env ev s0 = (t, .ok ())) : InvId t := by
  unfold handleStartSubflow at h
  cases hp : ev.payload.subflow with
  | none => rw [hp] at h; simp [Prod.ext_iff] at h
  | some sub =>
      rw [hp] at h
      dsimp only at h
      cases hf : s0.flow with
      | none => rw [hf] at h; simp [Prod.ext_iff] at h
      | some currentFlow =>
          rw [hf] at h
          dsimp only at h
          cases hsn : nodesFind sub
              (orStr ev.payload.startNodeId sub.start) with
          | none => rw [hsn] at h; simp [Prod.ext_iff] at h
          | some startNode =>
              rw [hsn] at h
              dsimp only at h
              refine invId_open_shape env startNode sub.id "subflow" _ _ t
                ?_ h
              refine invId_of_core ?_
                (invId_append (addToHistory startNode (setCurrentNode
                  startNode (initializeSubflowState sub
                    (mergeCtxOpt s0.context ev.payload.context)
                    (pushSubflow currentFlow
                      (orStr ev.payload.returnTo
                        (orStr (match ctxFind sub.globals "returnTo" with
                          | some (.vStr str) => some str
                          | _ => none)
                          (orStr (s0.currentNode.map FlowNode.id)
                            currentFlow.start)))
                      s0.context s0)))) startNode rfl ⟨_, rfl⟩)
              rw [core_emitNodeEnter, core_emitSubflowStarted]

theorem invId_after_nextSubflow (env : Env) (ev : FlowEvent)
    (s0 t : RunState) (hs0 : InvId s0)
    (h : handleNextSubflow env ev s0 = (t, .ok ())) : InvId t := by
  unfold handleNextSubflow at h
  by_cases hz : s0.subflowStack.length = 0
  · rw [if_pos hz] at h
    have hx : s0 = t := congrArg Prod.fst h
    exact hx ▸ hs0
  · rw [if_neg hz] at h
    dsimp only at h
    cases hf : s0.flow with
    | none =>
        rw [hf] at h
        dsimp only at h
        have hx : s0 = t := congrArg Prod.fst h
        exact hx ▸ hs0
    | some flow =>
        rw [hf] at h
        cases hc : s0.currentNode with
        | none =>
            rw [hc] at h
            dsimp only at h
            have hx : s0 = t := congrArg Prod.fst h
            exact hx ▸ hs0
        | some current =>
            rw [hc] at h
            dsimp only at h
            cases hpc : ev.payload.context with
            | none =>
                rw [hpc] at h
                dsimp only at h
                cases hsel : truthyStr (orStrOpt ev.payload.nodeId
                    (getNextNodeId current.id flow s0.context)) with
                | none =>
                    rw [hsel] at h
                    have hx : s0 = t := congrArg Prod.fst h
                    exact hx ▸ hs0
                | some tid =>
                    rw [hsel] at h
                    dsimp only at h
                    cases hfind : nodesFind flow tid with
                    | none =>
                        rw [hfind] at h
                        simp [navigateToNode, Prod.ext_iff] at h
                    | some tn =>
                        rw [hfind] at h
                        dsimp only at h
                        refine invId_open_shape env tn flow.id "subflow" _
                          _ t ?_ h
                        refine invId_of_core ?_
                          (invId_append (navigateToNodeReal tn s0) tn
                            (navigateToNodeReal_fields tn s0).1
                            ⟨_, (navigateToNodeReal_fields tn s0).2.1⟩)
                        rw [core_scheduleClose, core_emitWorkflowEvent,
                          core_emitNodeEnter]
            | some u =>
                rw [hpc] at h
                dsimp only at h
                cases hsel : truthyStr (orStrOpt ev.payload.nodeId
                    (getNextNodeId current.id flow
                      (updateContext u s0).context)) with
                | none =>
                    rw [hsel] at h
                    have hx : updateContext u s0 = t := congrArg Prod.fst h
                    refine hx ▸ invId_of_eq3 _ s0 ?_ ?_ ?_ hs0 <;>
                      simp [updateContext]
                | some tid =>
                    rw [hsel] at h
                    dsimp only at h
                    cases hfind : nodesFind flow tid with
                    | none =>
                        rw [hfind] at h
                        simp [navigateToNode, Prod.ext_iff] at h
                    | some tn =>
                        rw [hfind] at h
                        dsimp only at h
                        refine invId_open_shape env tn flow.id "subflow" _
                          _ t ?_ h
                        refine invId_of_core ?_
                          (invId_append
                            (navigateToNodeReal tn (updateContext u s0)) tn
                            (navigateToNodeReal_fields tn _).1
                            ⟨_, (navigateToNodeReal_fields tn _).2.1⟩)
                        rw [core_scheduleClose, core_emitWorkflowEvent,
                          core_emitNodeEnter]

theorem invId_after_closeSubflow (ev : FlowEvent) (s0 t : RunState)
    (hs0 : InvId s0)
    (h : handleCloseSubflow ev s0 = (t, .ok ())) : InvId t := by
  unfold handleCloseSubflow at h
  by_cases hz : s0.subflowStack.length = 0
  · rw [if_pos hz] at h
    have hx : s0 = t := congrArg Prod.fst h
    exact hx ▸ hs0
  · rw [if_neg hz] at h
    dsimp only at h
    have hpopInv : InvId (popSubflow ev.payload.context s0).1 :=
      invId_of_eq3 _ s0 (popSubflow_keeps _ _).1 (popSubflow_keeps _ _).2.1
        (popSubflow_keeps _ _).2.2 hs0
    cases hp2 : (popSubflow ev.payload.context s0).2 with
    | none =>
        rw [hp2] at h
        have hx : (popSubflow ev.payload.context s0).1 = t :=
          congrArg Prod.fst h
        exact hx ▸ hpopInv
    | some entry =>
        rw [hp2] at h
        dsimp only at h
        cases htr : truthyStr (some entry.returnTo) with
        | some rid =>
            rw [htr] at h
            dsimp only at h
            cases hnf : nodesFind entry.flow rid with
            | some rn =>
                rw [hnf] at h
                dsimp only at h
                have hx := congrArg Prod.fst h
                dsimp only at hx
                rw [← hx]
                refine invId_of_core ?_
                  (invId_append (addToHistory rn (setCurrentNode rn
                    (popSubflow ev.payload.context s0).1)) rn rfl ⟨_, rfl⟩)
                rw [core_scheduleClose, core_emitSubflowClosed,
                  core_emitNodeEnter]
            | none =>
                rw [hnf] at h
                dsimp only at h
                cases htr2 : truthyStr (some entry.flow.start) with
                | some fid =>
                    rw [htr2] at h
                    dsimp only at h
                    cases hnf2 : nodesFind entry.flow fid with
                    | some rn =>
                        rw [hnf2] at h
                        dsimp only at h
                        have hx := congrArg Prod.fst h
                        dsimp only at hx
                        rw [← hx]
                        refine invId_of_core ?_
                          (invId_append (addToHistory rn (setCurrentNode rn
                            (popSubflow ev.payload.context s0).1)) rn rfl
                            ⟨_, rfl⟩)
                        rw [core_scheduleClose, core_emitSubflowClosed,
                          core_emitNodeEnter]
                    | none =>
                        rw [hnf2] at h
                        dsimp only at h
                        have hx := congrArg Prod.fst h
                        dsimp only at hx
                        rw [← hx]
                        refine invId_of_core ?_ hpopInv
                        rw [core_scheduleClose, core_emitSubflowClosed]
                | none =>
                    rw [htr2] at h
                    dsimp only at h
                    have hx := congrArg Prod.fst h
                    dsimp only at hx
                    rw [← hx]
                    refine invId_of_core ?_ hpopInv
                    rw [core_scheduleClose, core_emitSubflowClosed]
        | none =>
            rw [htr] at h
            dsimp only at h
            cases htr2 : truthyStr (some entry.flow.start) with
            | some fid =>
                rw [htr2] at h
                dsimp only at h
                cases hnf2 : nodesFind entry.flow fid with
                | some rn =>
                    rw [hnf2] at h
                    dsimp only at h
                    have hx := congrArg Prod.fst h
                    dsimp only at hx
                    rw [← hx]
                    refine invId_of_core ?_
                      (invId_append (addToHistory rn (setCurrentNode rn
                        (popSubflow ev.payload.context s0).1)) rn rfl
                        ⟨_, rfl⟩)
                    rw [core_scheduleClose, core_emitSubflowClosed,
                      core_emitNodeEnter]
                | none =>
                    rw [hnf2] at h
                    dsimp only at h
                    have hx := congrArg Prod.fst h
                    dsimp only at hx
                    rw [← hx]
                    refine invId_of_core ?_ hpopInv
                    rw [core_scheduleClose, core_emitSubflowClosed]
            | none =>
                rw [htr2] at h
                dsimp only at h
                have hx := congrArg Prod.fst h
                dsimp only at hx
                rw [← hx]
                refine invId_of_core ?_ hpopInv
                rw [core_scheduleClose, core_emitSubflowClosed]

/-- C5 counterexample: the spec's literal invariant — the last history
element EQUALS the current node — is broken by a reachable run while the
flow is running.  `rtRun5` = START(P) · START_SUBFLOW(S) · CLOSE_SUBFLOW ·
NEXT · BACK, where parent P and subflow S both contain a node with id "x"
but with different node values: CLOSE_SUBFLOW does not restore the parent
history, and BACK then truncates to the first occurrence of the
predecessor's id, which is the subflow's node xS — leaving the history's
last element xS while the current node is the parent's xP. -/
theorem C5_invariant_counterexample :
    rtRun5.isRunning = true ∧
    rtRun5.currentNode = some xP ∧
    rtRun5.history = [some xS] ∧
    xS ≠ xP ∧
    rtRun5.history.getLast? ≠ some rtRun5.currentNode := by
  decide

/-- C5 amended: while a flow is running, the last element of history
carries the same node ID as the current node (`InvId`: id-level match
rather than node-value equality, which the counterexample refutes); every
state-mutating command — START, NEXT, BACK, JUMP_TO, START_SUBFLOW,
NEXT_SUBFLOW, BACK_SUBFLOW, CLOSE_SUBFLOW — preserves it, from any state
satisfying it. -/
theorem C5_invariant_amended (env : Env) (cmd : FlowCommand)
    (p : FlowPayload) (s : RunState)
    (hcmd : cmd ∈ [FlowCommand.START, FlowCommand.NEXT, FlowCommand.BACK,
      FlowCommand.JUMP_TO, FlowCommand.START_SUBFLOW,
      FlowCommand.NEXT_SUBFLOW, FlowCommand.BACK_SUBFLOW,
      FlowCommand.CLOSE_SUBFLOW])
    (hinv : InvId s) : InvId (dispatch env (some ⟨cmd, p⟩) s) := by
  have hs0 : InvId { s with error := none } := invId_errClear s hinv
  fin_cases hcmd
  · exact invId_dispatch_of_ok env _ s (fun t ht =>
      invId_after_start env _ _ t ht)
  · exact invId_dispatch_of_ok env _ s (fun t ht =>
      invId_after_next env _ _ t hs0 ht)
  · exact invId_dispatch_of_ok env _ s (fun t ht =>
      invId_after_back env _ _ t hs0 ht)
  · exact invId_dispatch_of_ok env _ s (fun t ht =>
      invId_after_jumpTo env _ _ t hs0 ht)
  · exact invId_dispatch_of_ok env _ s (fun t ht =>
      invId_after_startSubflow env _ _ t ht)
  · exact invId_dispatch_of_ok env _ s (fun t ht =>
      invId_after_nextSubflow env _ _ t hs0 ht)
  · exact invId_dispatch_of_ok env _ s (fun t ht =>
      invId_after_backSubflow env _ _ t hs0 ht)
  · exact invId_dispatch_of_ok env _ s (fun t ht =>
      invId_after_closeSubflow _ _ t hs0 ht)

/-- Witness for C5's amended invariant at a concrete running state and
command. -/
theorem C5_invariant_witness :
    InvId (dispatch envD (some ⟨.NEXT, {}⟩) abcStarted) :=
  C5_invariant_amended envD .NEXT {} abcStarted (by decide) (by decide)

end KioskFlow






